import Mathlib

/-!
Harmonic tide prediction for Dumbarton Highway Bridge.

A shallow embedding of `firmware/TidelibDumbartonHighwayBridge.cpp`: the compiled-in
constituent tables, the file-scope scratch variables, and `TideCalc::currentTide`.

Conventions of the embedding.

* The target is a 32-bit controller: `unsigned int` and `unsigned long` are 32 bits wide, so
  unsigned results are reduced modulo `4294967296`; `time_t` is 32 bits wide as well, and
  `now - startSecs[YearIndx]` is computed in `unsigned long`.
* `float` arithmetic is read as exact arithmetic in a field `α` (the real numbers in the
  theorems); the decimal literals of the tables are kept as rational numbers and cast to `α`
  where the code reads them. The hours computation is given a second time with `float` read as
  IEEE binary32 (`hoursF32`), for the bounds where rounding matters.
* `Time.year`, `cos` and `DEG_TO_RAD` come from the platform libraries, not from this file of
  the firmware; they are parameters of `currentTide`.
* An array read whose index is outside the array is undefined behaviour in the source; the
  embedding stops there with `Fault.outOfBounds`, recording the table and the index.
-/

namespace TideCalc

/-- A timestamp of the 32-bit target: every value a 32-bit `time_t` can hold, read as signed
(`-2147483648 ..`) or as unsigned (`.. 4294967295`; timestamps after 2038-01-19 03:14:07 UTC
need the unsigned reading). -/
def time_t : Type := { n : Int // -2147483648 ≤ n ∧ n ≤ 4294967295 }

/-- The constant arrays read by `currentTide`. -/
inductive Table where
  | startSecs
  | Nodefactor
  | Amp
  | Equilarg
  | Kappa
  | Speed
  deriving DecidableEq, Repr

/-- An array read outside the array: undefined behaviour in the source, which has no guard.
It is not a value that `currentTide` returns. -/
inductive Fault where
  | outOfBounds (table : Table) (index : Nat)
  deriving DecidableEq, Repr

/-- The file-scope scratch variables written by `currentTide`, in declaration order. -/
structure Globals (α : Type) where
  YearIndx : Nat
  currHours : α
  currAmp : α
  currSpeed : α
  currNodefactor : α
  currEquilarg : α
  currKappa : α
  tideHeight : α

/-- The scratch variables at program start: `YearIndx = 0`, `currHours = 0`, the rest zero-initialised. -/
def initGlobals {α : Type} [Field α] : Globals α :=
  ⟨0, 0, 0, 0, 0, 0, 0, 0⟩

/-- Time zone adjustment, in hours (`const int adjustGMT = 8`). -/
def adjustGMT : Int := 8

/-- Difference between mean sea level and mean lower low water, in feet (`const float Datum`). -/
def Datum : ℚ := 4.6818

/-- Amplitude of each harmonic constituent at this station (`Amp`), in feet. -/
def Amp : List ℚ :=
  [0.056, 1.378, 0.236, 0.19, 0.046, 3.038, 0.023, 0.059, 0.056, 0.01, 0.591, 0.069, 0.81, 0.039, 0.449, 0.148, 0.03, 0.007, 0.072, 0.65, 0, 0, 0.033, 0.039, 0.069, 0.138, 0.039, 0.105, 0.151, 0.03, 0.043, 0.026, 0, 0, 0, 0.125, 0.128]

/-- Phase lag of each harmonic constituent at this station (`Kappa`), in degrees. -/
def Kappa : List ℚ :=
  [281.9, 244, 244.6, 237.1, 272.4, 246.7, 354.4, 10.2, 49.9, 105.8, 225.6, 199.6, 228.9, 283.2, 240.8, 228.1, 215.9, 264.9, 218.3, 264.2, 0, 0, 249.3, 212.2, 25.7, 226.8, 215.5, 95.6, 80.6, 356.7, 23.3, 75, 0, 0, 0, 221.4, 286.9]

/-- Angular speed of each harmonic constituent (`Speed`), in degrees per hour. -/
def Speed : List ℚ :=
  [15.58544, 15.04107, 30.08214, 29.52848, 14.49669, 28.9841, 43.47616, 57.96821, 86.95231, 115.9364, 28.43973, 27.89535, 13.94304, 16.1391, 14.95893, 13.39866, 12.85429, 30.04107, 15, 30, 60, 90, 29.95893, 29.45563, 27.96821, 28.51258, 13.47151, 44.02517, 42.92714, 57.42383, 58.9841, 31.0159, 1.098033, 1.015896, 0.5443747, 0.0410686, 0.0821373]

/-- Equilibrium argument of each constituent, one row per year from 2015 (`Equilarg[24][37]`). -/
def Equilarg : List (List ℚ) :=
  [ [83.38, 11.3, 202.4, 3.66, 322.99, 110.42, 165.63, 220.84, 331.26, 81.68, 38.87, 327.32, 98.58, 105.09, 349.67, 27.03, 315.49, 177.14, 180, 0, 0, 0, 2.86, 108.65, 220.64, 292.19, 280.36, 121.72, 209.54, 149.29, 110.42, 249.58, 93.25, 249.58, 71.55, 280.33, 200.67],
    [166.42, 7.56, 195.61, 182.09, 211.44, 210.46, 135.69, 60.92, 271.39, 121.85, 50.19, 249.92, 204.31, 348, 349.9, 44.04, 243.77, 176.88, 180, 0, 0, 0, 3.12, 19.21, 61.44, 221.71, 215.56, 218.02, 53.36, 260.65, 210.46, 149.54, 341.84, 149.54, 160.27, 280.1, 200.19],
    [264.33, 5.26, 191.35, 1.96, 102.4, 286.18, 69.27, 212.36, 138.54, 64.72, 24.12, 122.06, 283.91, 260.62, 349.16, 21.85, 119.79, 177.61, 180, 0, 0, 0, 2.39, 276.77, 213.53, 115.59, 113.32, 291.44, 207.11, 310.3, 286.18, 73.82, 258.36, 73.82, 262.06, 280.84, 201.69],
    [349.75, 2.87, 186.44, 202.17, 42.75, 26.41, 39.61, 52.82, 79.23, 105.64, 35.63, 44.85, 27.45, 150.48, 349.4, 36.66, 45.88, 177.35, 180, 0, 0, 0, 2.65, 187.53, 54.51, 45.29, 46.33, 29.28, 49.95, 62.04, 26.41, 333.59, 151.52, 333.59, 350.78, 280.6, 201.21],
    [76.92, 1.58, 183.41, 39.83, 314.62, 126.83, 10.24, 253.65, 20.48, 147.31, 47.32, 327.82, 129.41, 45.42, 349.63, 49.91, 330.4, 177.1, 180, 0, 0, 0, 2.9, 98.47, 255.68, 335.19, 337.77, 128.41, 252.07, 174.15, 126.83, 233.17, 48, 233.17, 79.5, 280.37, 200.73],
    [165.67, 1.37, 182.52, 211.35, 206.58, 227.47, 341.21, 94.94, 322.41, 189.88, 59.24, 251.02, 230.02, 304.87, 349.87, 61.8, 253.57, 176.84, 180, 0, 0, 0, 3.16, 9.64, 97.08, 265.3, 267.86, 228.84, 93.57, 286.71, 227.47, 132.53, 307.42, 132.53, 168.23, 280.13, 200.25],
    [269.75, 3.07, 185.62, 17.26, 90.25, 303.97, 275.96, 247.95, 191.92, 135.9, 33.96, 123.94, 304.24, 235.22, 349.13, 34.23, 124.21, 177.57, 180, 0, 0, 0, 2.43, 267.98, 249.95, 159.97, 160.24, 307.04, 244.88, 337.93, 303.97, 56.03, 235.49, 56.03, 270.01, 280.87, 201.75],
    [0.7, 4.49, 188.41, 224.35, 24.63, 45.09, 247.63, 90.18, 135.26, 180.35, 46.35, 47.61, 43.13, 140.79, 349.36, 44.39, 45.65, 177.32, 180, 0, 0, 0, 2.68, 179.62, 91.82, 90.56, 88.6, 49.58, 85.68, 91.44, 45.09, 314.91, 138.83, 314.91, 358.74, 280.64, 201.27],
    [92.29, 6.43, 192.41, 74.18, 317.02, 146.39, 219.58, 292.78, 79.17, 225.56, 58.93, 331.47, 141.56, 48.09, 349.6, 54.1, 326.64, 177.06, 180, 0, 0, 0, 2.94, 91.44, 293.87, 21.33, 16.51, 152.82, 286.35, 205.32, 146.39, 213.61, 43.26, 213.61, 87.46, 280.4, 200.79],
    [184.25, 8.66, 197.15, 246.07, 213.12, 247.82, 191.73, 135.64, 23.46, 271.27, 71.64, 255.45, 239.75, 316.39, 349.84, 63.57, 247.38, 176.8, 180, 0, 0, 0, 3.2, 3.4, 136.06, 312.24, 304.17, 256.48, 126.97, 319.45, 247.82, 112.18, 308.32, 112.18, 176.18, 280.16, 200.32],
    [290.4, 12, 204.13, 41.02, 96.21, 324.92, 127.37, 289.83, 254.75, 219.66, 46.94, 128.97, 312.48, 252.38, 349.1, 34.51, 116.54, 177.53, 180, 0, 0, 0, 2.47, 262.34, 289.52, 207.49, 195.06, 336.91, 277.83, 11.86, 324.92, 35.08, 239.95, 35.08, 277.97, 280.9, 201.81],
    [22.4, 14.26, 208.93, 250.96, 25.28, 66.36, 99.53, 132.71, 199.07, 265.43, 59.66, 52.97, 50.65, 160.77, 349.33, 43.96, 37.26, 177.28, 180, 0, 0, 0, 2.72, 174.3, 131.72, 138.41, 122.7, 80.62, 118.45, 126.02, 66.36, 293.64, 145.06, 293.64, 6.69, 280.67, 201.33],
    [114.06, 16.25, 213.08, 101.09, 323.67, 167.68, 71.52, 335.37, 143.05, 310.73, 72.27, 336.85, 149.03, 68.26, 349.57, 53.62, 318.2, 177.02, 180, 0, 0, 0, 2.98, 86.15, 333.8, 69.21, 50.56, 183.94, 319.11, 239.95, 167.68, 192.32, 49.61, 192.32, 95.42, 280.43, 200.85],
    [205.14, 17.78, 216.09, 279.46, 220.94, 268.83, 43.24, 177.66, 86.49, 355.32, 84.69, 260.55, 247.83, 334.17, 349.81, 63.69, 239.55, 176.77, 180, 0, 0, 0, 3.23, 357.82, 175.7, 359.84, 338.83, 286.61, 159.88, 353.52, 268.83, 91.17, 313.17, 91.17, 184.14, 280.19, 200.38],
    [309.38, 19.6, 219.48, 75.08, 101.48, 345.37, 338.06, 330.74, 316.11, 301.48, 59.44, 133.52, 321.92, 264.98, 349.06, 35.99, 110.07, 177.5, 180, 0, 0, 0, 2.5, 256.21, 328.61, 254.54, 231.08, 4.97, 311.14, 44.82, 345.37, 14.63, 241.53, 14.63, 285.93, 280.94, 201.87],
    [38.35, 19.55, 218.92, 275.51, 16.35, 86.05, 309.08, 172.1, 258.16, 344.21, 71.4, 56.75, 62.35, 165.06, 349.3, 47.7, 33.05, 177.24, 180, 0, 0, 0, 2.76, 167.41, 170.04, 184.69, 160.99, 105.6, 152.56, 157.45, 86.05, 273.95, 141.35, 273.95, 14.65, 280.7, 201.39],
    [125.79, 18.44, 216.22, 118.09, 318.69, 186.5, 279.75, 13.01, 199.51, 26.01, 83.13, 339.76, 164.08, 60.76, 349.54, 60.71, 317.34, 176.98, 180, 0, 0, 0, 3.02, 78.39, 11.25, 114.62, 92.2, 204.94, 354.57, 269.63, 186.5, 173.5, 38.34, 173.5, 103.37, 280.46, 200.92],
    [211.48, 16.21, 211.57, 307.74, 220.29, 286.76, 250.14, 213.51, 140.27, 67.03, 94.66, 262.57, 267.37, 311.4, 349.78, 75.28, 243.18, 176.73, 180, 0, 0, 0, 3.27, 349.17, 212.25, 44.35, 24.96, 302.97, 197.3, 21.42, 286.76, 73.24, 292.02, 73.24, 192.09, 280.22, 200.44],
    [309.59, 14.02, 207.47, 112.35, 96.57, 2.49, 183.74, 4.98, 7.47, 9.96, 68.61, 134.73, 346.78, 224.64, 349.03, 52.9, 119.02, 177.46, 180, 0, 0, 0, 2.54, 246.74, 4.36, 298.24, 282.53, 16.51, 350.96, 71.1, 2.49, 357.51, 208.93, 357.51, 293.88, 280.97, 201.93],
    [32.7, 10.32, 200.72, 296.37, 348.28, 102.54, 153.81, 205.08, 307.61, 50.15, 79.93, 57.33, 92.45, 107.74, 349.27, 69.84, 47.24, 177.2, 180, 0, 0, 0, 2.8, 157.31, 205.16, 227.76, 217.67, 112.86, 194.76, 182.47, 102.54, 257.46, 97.64, 257.46, 22.6, 280.73, 201.46],
    [115.93, 6.69, 194.07, 131.78, 265.69, 202.59, 123.89, 45.19, 247.78, 90.38, 91.27, 339.94, 197.99, 351.23, 349.51, 86.66, 335.33, 176.95, 180, 0, 0, 0, 3.05, 67.89, 45.97, 157.3, 152.69, 209.29, 38.5, 293.86, 202.59, 157.41, 346.62, 157.41, 111.33, 280.49, 200.98],
    [200.33, 3.71, 188.26, 330.91, 200.59, 302.74, 94.1, 245.47, 188.21, 130.95, 102.69, 262.64, 302.45, 238.11, 349.75, 102.4, 262.35, 176.69, 180, 0, 0, 0, 3.31, 338.56, 246.86, 86.91, 86.63, 306.44, 241.76, 45.42, 302.74, 57.26, 237.83, 57.26, 200.05, 280.25, 200.5],
    [300.48, 2.72, 185.99, 150.46, 88.18, 18.65, 27.98, 37.3, 55.95, 74.6, 76.81, 134.97, 20.01, 157.28, 349, 78.17, 136.33, 177.42, 180, 0, 0, 0, 2.58, 236.31, 39.15, 340.99, 342.34, 21.37, 34.58, 95.46, 18.65, 341.35, 158.64, 341.35, 301.84, 281, 201.99],
    [28.3, 1.86, 183.78, 319.33, 338.46, 119.15, 358.73, 238.3, 357.45, 116.61, 88.59, 58.03, 121.41, 54.07, 349.24, 90.85, 60.29, 177.16, 180, 0, 0, 0, 2.84, 147.34, 240.4, 270.96, 273.22, 121.01, 236.44, 207.74, 119.15, 240.85, 56.33, 240.85, 30.56, 280.76, 201.52] ]

/-- Node factor of each constituent, one row per year from 2015 (`Nodefactor[24][37]`). -/
def Nodefactor : List (List ℚ) :=
  [ [0.8278, 0.8824, 0.7472, 0.878, 1.5575, 1.0377, 1.0571, 1.0768, 1.1173, 1.1594, 1.0377, 1.0377, 0.8068, 0.4868, 1, 0.8068, 0.8068, 1, 1, 1, 1, 1, 1, 1.0377, 1.0377, 1.0377, 0.8068, 0.9156, 0.9501, 1.0768, 1.0377, 1.0377, 0.6271, 1.0377, 1.1307, 1, 1],
    [0.8343, 0.8864, 0.7533, 0.9704, 1.4048, 1.0367, 1.0556, 1.0747, 1.1141, 1.155, 1.0367, 1.0367, 0.8135, 0.5, 1, 0.8135, 0.8135, 1, 1, 1, 1, 1, 1, 1.0367, 1.0367, 1.0367, 0.8135, 0.9189, 0.9526, 1.0747, 1.0367, 1.0367, 0.6381, 1.0367, 1.1272, 1, 1],
    [0.8669, 0.9068, 0.7865, 1.1656, 0.9653, 1.0315, 1.0477, 1.0641, 1.0977, 1.1323, 1.0315, 1.0315, 0.8475, 0.5711, 1, 0.8475, 0.8475, 1, 1, 1, 1, 1, 1, 1.0315, 1.0315, 1.0315, 0.8475, 0.9354, 0.965, 1.0641, 1.0315, 1.0315, 0.6961, 1.0315, 1.109, 1, 1],
    [0.9176, 0.9394, 0.8458, 1.204, 0.9343, 1.0229, 1.0345, 1.0463, 1.0702, 1.0947, 1.0229, 1.0229, 0.9011, 0.6981, 1, 0.9011, 0.9011, 1, 1, 1, 1, 1, 1, 1.0229, 1.0229, 1.0229, 0.9011, 0.9609, 0.9829, 1.0463, 1.0229, 1.0229, 0.7936, 1.0229, 1.0783, 1, 1],
    [0.9761, 0.9782, 0.9272, 0.9582, 1.6115, 1.0117, 1.0176, 1.0235, 1.0354, 1.0475, 1.0117, 1.0117, 0.9643, 0.8745, 1, 0.9643, 0.9643, 1, 1, 1, 1, 1, 1, 1.0117, 1.0117, 1.0117, 0.9643, 0.9897, 1.0012, 1.0235, 1.0117, 1.0117, 0.9188, 1.0117, 1.039, 1, 1],
    [1.0336, 1.0176, 1.0225, 0.7337, 1.9813, 0.9992, 0.9989, 0.9985, 0.9977, 0.9969, 0.9992, 0.9992, 1.0279, 1.0859, 1, 1.0279, 1.0279, 1, 1, 1, 1, 1, 1, 0.9992, 0.9992, 0.9992, 1.0279, 1.0168, 1.016, 0.9985, 0.9992, 0.9992, 1.0571, 0.9992, 0.9955, 1, 1],
    [1.0836, 1.0529, 1.1201, 1.0649, 1.5936, 0.987, 0.9805, 0.9741, 0.9614, 0.9489, 0.987, 0.987, 1.085, 1.309, 1, 1.085, 1.085, 1, 1, 1, 1, 1, 1, 0.987, 0.987, 0.987, 1.085, 1.0392, 1.0257, 0.9741, 0.987, 0.987, 1.1924, 0.987, 0.953, 1, 1],
    [1.1226, 1.0812, 1.2075, 1.3148, 1.0585, 0.9763, 0.9646, 0.9531, 0.9305, 0.9084, 0.9763, 0.9763, 1.131, 1.5151, 1, 1.131, 1.131, 1, 1, 1, 1, 1, 1, 0.9763, 0.9763, 0.9763, 1.131, 1.0555, 1.0305, 0.9531, 0.9763, 0.9763, 1.3097, 0.9763, 0.9161, 1, 1],
    [1.1492, 1.1009, 1.2736, 1.0393, 1.7582, 0.9683, 0.9528, 0.9376, 0.9079, 0.8791, 0.9683, 0.9683, 1.1631, 1.6753, 1, 1.1631, 1.1631, 1, 1, 1, 1, 1, 1, 0.9683, 0.9683, 0.9683, 1.1631, 1.066, 1.0322, 0.9376, 0.9683, 0.9683, 1.3967, 0.9683, 0.8888, 1, 1],
    [1.163, 1.1112, 1.3104, 0.5914, 2.2831, 0.9639, 0.9464, 0.9291, 0.8956, 0.8633, 0.9639, 0.9639, 1.1801, 1.7658, 1, 1.1801, 1.1801, 1, 1, 1, 1, 1, 1, 0.9639, 0.9639, 0.9639, 1.1801, 1.0711, 1.0324, 0.9291, 0.9639, 0.9639, 1.4444, 0.9639, 0.8738, 1, 1],
    [1.164, 1.112, 1.3131, 1.0008, 1.8466, 0.9636, 0.9459, 0.9285, 0.8947, 0.8621, 0.9636, 0.9636, 1.1814, 1.7726, 1, 1.1814, 1.1814, 1, 1, 1, 1, 1, 1, 0.9636, 0.9636, 0.9636, 1.1814, 1.0715, 1.0324, 0.9285, 0.9636, 0.9636, 1.4479, 0.9636, 0.8727, 1, 1],
    [1.1522, 1.1031, 1.2815, 1.3288, 1.0994, 0.9674, 0.9515, 0.9358, 0.9052, 0.8757, 0.9674, 0.9674, 1.1668, 1.6946, 1, 1.1668, 1.1668, 1, 1, 1, 1, 1, 1, 0.9674, 0.9674, 0.9674, 1.1668, 1.0671, 1.0323, 0.9358, 0.9674, 0.9674, 1.4069, 0.9674, 0.8856, 1, 1],
    [1.1276, 1.0849, 1.2196, 1.091, 1.6268, 0.9748, 0.9625, 0.9502, 0.9263, 0.903, 0.9748, 0.9748, 1.137, 1.544, 1, 1.137, 1.137, 1, 1, 1, 1, 1, 1, 0.9748, 0.9748, 0.9748, 1.137, 1.0576, 1.0309, 0.9502, 0.9748, 0.9748, 1.3257, 0.9748, 0.9111, 1, 1],
    [1.0904, 1.0578, 1.1347, 0.6859, 2.1026, 0.9852, 0.9779, 0.9705, 0.9561, 0.942, 0.9852, 0.9852, 1.093, 1.3431, 1, 1.093, 1.093, 1, 1, 1, 1, 1, 1, 0.9852, 0.9852, 0.9852, 1.093, 1.0422, 1.0267, 0.9705, 0.9852, 0.9852, 1.2123, 0.9852, 0.9468, 1, 1],
    [1.042, 1.0235, 1.0379, 0.9408, 1.7337, 0.9973, 0.9959, 0.9945, 0.9918, 0.9891, 0.9973, 0.9973, 1.0374, 1.1206, 1, 1.0374, 1.0374, 1, 1, 1, 1, 1, 1, 0.9973, 0.9973, 0.9973, 1.0374, 1.0207, 1.0179, 0.9945, 0.9973, 0.9973, 1.0788, 0.9973, 0.9887, 1, 1],
    [0.9854, 0.9845, 0.9416, 1.2309, 0.9912, 1.0098, 1.0147, 1.0196, 1.0296, 1.0396, 1.0098, 1.0098, 0.9745, 0.9059, 1, 0.9745, 0.9745, 1, 1, 1, 1, 1, 1, 1.0098, 1.0098, 1.0098, 0.9745, 0.9942, 1.0039, 1.0196, 1.0098, 1.0098, 0.9401, 1.0098, 1.0323, 1, 1],
    [0.9266, 0.9453, 0.8573, 1.1617, 1.0896, 1.0212, 1.0321, 1.0429, 1.0651, 1.0877, 1.0212, 1.0212, 0.9107, 0.7229, 1, 0.9107, 0.9107, 1, 1, 1, 1, 1, 1, 1.0212, 1.0212, 1.0212, 0.9107, 0.9654, 0.9859, 1.0429, 1.0212, 1.0212, 0.8118, 1.0212, 1.0726, 1, 1],
    [0.8739, 0.9113, 0.7941, 0.9272, 1.5305, 1.0304, 1.046, 1.0617, 1.094, 1.1273, 1.0304, 1.0304, 0.8549, 0.5873, 1, 0.8549, 0.8549, 1, 1, 1, 1, 1, 1, 1.0304, 1.0304, 1.0304, 0.8549, 0.939, 0.9675, 1.0617, 1.0304, 1.0304, 0.709, 1.0304, 1.1049, 1, 1],
    [0.8378, 0.8886, 0.7567, 0.8837, 1.5595, 1.0361, 1.0547, 1.0736, 1.1124, 1.1526, 1.0361, 1.0361, 0.8171, 0.5073, 1, 0.8171, 0.8171, 1, 1, 1, 1, 1, 1, 1.0361, 1.0361, 1.0361, 0.8171, 0.9207, 0.954, 1.0736, 1.0361, 1.0361, 0.6442, 1.0361, 1.1253, 1, 1],
    [0.8269, 0.8818, 0.7464, 1.0589, 1.2041, 1.0378, 1.0573, 1.077, 1.1177, 1.16, 1.0378, 1.0378, 0.8059, 0.4851, 1, 0.8059, 0.8059, 1, 1, 1, 1, 1, 1, 1.0378, 1.0378, 1.0378, 0.8059, 0.9152, 0.9498, 1.077, 1.0378, 1.0378, 0.6256, 1.0378, 1.1312, 1, 1],
    [0.8441, 0.8925, 0.763, 1.1994, 0.7928, 1.0352, 1.0532, 1.0716, 1.1093, 1.1483, 1.0352, 1.0352, 0.8237, 0.5207, 1, 0.8237, 0.8237, 1, 1, 1, 1, 1, 1, 1.0352, 1.0352, 1.0352, 0.8237, 0.9239, 0.9564, 1.0716, 1.0352, 1.0352, 0.6552, 1.0352, 1.1218, 1, 1],
    [0.8849, 0.9183, 0.8065, 1.1386, 1.0823, 1.0286, 1.0432, 1.0579, 1.0882, 1.1193, 1.0286, 1.0286, 0.8665, 0.6138, 1, 0.8665, 0.8665, 1, 1, 1, 1, 1, 1, 1.0286, 1.0286, 1.0286, 0.8665, 0.9445, 0.9715, 1.0579, 1.0286, 1.0286, 0.7297, 1.0286, 1.0984, 1, 1],
    [0.9399, 0.9541, 0.8752, 0.8768, 1.6895, 1.0188, 1.0283, 1.0379, 1.0573, 1.0772, 1.0188, 1.0188, 0.925, 0.7613, 1, 0.925, 0.925, 1, 1, 1, 1, 1, 1, 1.0188, 1.0188, 1.0188, 0.925, 0.972, 0.9902, 1.0379, 1.0188, 1.0188, 0.8397, 1.0188, 1.0639, 1, 1],
    [0.9989, 0.9937, 0.9631, 0.8167, 1.8437, 1.0069, 1.0104, 1.0139, 1.0209, 1.028, 1.0069, 1.0069, 0.9893, 0.9534, 1, 0.9893, 0.9893, 1, 1, 1, 1, 1, 1, 1.0069, 1.0069, 1.0069, 0.9893, 1.0006, 1.0075, 1.0139, 1.0069, 1.0069, 0.9717, 1.0069, 1.0224, 1, 1] ]

/-- Unix time of the start of each year 2015 .. 2038 (`startSecs`, `unsigned long`). -/
def startSecs : List Nat :=
  [1420070400, 1451606400, 1483228800, 1514764800, 1546300800, 1577836800, 1609459200, 1640995200, 1672531200, 1704067200, 1735689600, 1767225600, 1798761600, 1830297600, 1861920000, 1893456000, 1924992000, 1956528000, 1988150400, 2019686400, 2051222400, 2082758400, 2114380800, 2145916800]

/-- First year of data in the `Equilarg`/`Nodefactor`/`startSecs` arrays (`unsigned int`). -/
def startYear : Nat := 2015

/-- Read `xs[i]` of a one-dimensional array. -/
def readAt {β : Type} (t : Table) (xs : List β) (i : Nat) : Except Fault β :=
  match xs[i]? with
  | some v => .ok v
  | none => .error (.outOfBounds t i)

/-- Read `xss[r][c]` of a two-dimensional array. -/
def readAt2 {β : Type} (t : Table) (xss : List (List β)) (r c : Nat) : Except Fault β :=
  match xss[r]? with
  | some row =>
    match row[c]? with
    | some v => .ok v
    | none => .error (.outOfBounds t c)
  | none => .error (.outOfBounds t r)

/-- One pass of the body of the `for (int harms = 0; harms < 37; harms++)` loop, with the
amplitude array as a parameter. Every read goes through the scratch variables, as in the source. -/
def harmonicWith {α : Type} [Field α] (cos : α → α) (DEG_TO_RAD : α) (amp : List α)
    (g : Globals α) (harms : Nat) : Except Fault (Globals α) := do
  let nf ← readAt2 .Nodefactor Nodefactor g.YearIndx harms
  let g := { g with currNodefactor := (nf : α) }
  let a ← readAt .Amp amp harms
  let g := { g with currAmp := a }
  let e ← readAt2 .Equilarg Equilarg g.YearIndx harms
  let g := { g with currEquilarg := (e : α) }
  let k ← readAt .Kappa Kappa harms
  let g := { g with currKappa := (k : α) }
  let s ← readAt .Speed Speed harms
  let g := { g with currSpeed := (s : α) }
  pure { g with tideHeight := g.tideHeight + (g.currNodefactor * g.currAmp *
    cos ((g.currSpeed * g.currHours + g.currEquilarg - g.currKappa) * DEG_TO_RAD)) }

/-- The body of `TideCalc::currentTide`, with the datum and the amplitude array as parameters.
Returns the tide height together with the scratch variables as the call leaves them. -/
def currentTideWith {α : Type} [Field α] (year : time_t → Int) (cos : α → α) (DEG_TO_RAD : α)
    (datum : α) (amp : List α) (g : Globals α) (now : time_t) : Except Fault (α × Globals α) := do
  let g := { g with YearIndx := ((year now - (startYear : Int)) % 4294967296).toNat }
  let s ← readAt .startSecs startSecs g.YearIndx
  let g := { g with currHours := (((now.val - (s : Int)) % 4294967296 : Int) : α) / 3600 }
  let g := { g with currHours := g.currHours + ((adjustGMT : Int) : α) }
  let g := { g with tideHeight := datum }
  let g ← (List.range 37).foldlM (harmonicWith cos DEG_TO_RAD amp) g
  pure (g.tideHeight, g)

/-- `TideCalc::currentTide`: the body run with the compiled-in `Datum` and `Amp`. -/
def currentTide {α : Type} [Field α] (year : time_t → Int) (cos : α → α) (DEG_TO_RAD : α)
    (g : Globals α) (now : time_t) : Except Fault (α × Globals α) :=
  currentTideWith year cos DEG_TO_RAD (Datum : α) (Amp.map (fun a : ℚ => (a : α))) g now

/-- Modelled from the spec: the calendar year of a day count. `days` is the number of days since
1970-01-01; the result is the year of the proleptic Gregorian calendar that day falls in, by the
usual computation on 400-year eras that start on March 1. -/
def civilYear (days : Int) : Int :=
  let z := days + 719468
  let era := z / 146097
  let doe := z % 146097
  let yoe := (doe - doe / 1460 + doe / 36524 - doe / 146096) / 365
  let doy := doe - (365 * yoe + yoe / 4 - yoe / 100)
  let mp := (5 * doy + 2) / 153
  yoe + era * 400 + (if mp < 10 then 0 else 1)

/-- Modelled from the spec: `Time.year` belongs to the platform library and is not part of the
source file. This is the calendar year of a timestamp in UTC, days being 86400 seconds long. -/
def utcYear (now : time_t) : Int :=
  civilYear (now.val / 86400)

/-- Gregorian leap-year rule. -/
def isLeapYear (y : Nat) : Bool :=
  y % 4 == 0 && (y % 100 != 0 || y % 400 == 0)

/-- Number of days of a Gregorian calendar year. -/
def daysInYear (y : Nat) : Nat :=
  if isLeapYear y then 366 else 365

/-- Unix time (seconds since 1970-01-01 00:00:00 UTC, no leap seconds) of 00:00:00 UTC on
January 1 of year `y`: 86400 seconds for every day of the years 1970 .. y - 1. -/
def unixYearStart (y : Nat) : Nat :=
  86400 * ((List.range (y - 1970)).map (fun j => daysInYear (1970 + j))).sum

/-- Entry `i` of a one-dimensional table, for use in statements. -/
def entry (xs : List ℚ) (i : Nat) : ℚ :=
  xs.getD i 0

/-- Entry `[r][c]` of a two-dimensional table, for use in statements. -/
def entry2 (xss : List (List ℚ)) (r c : Nat) : ℚ :=
  (xss.getD r []).getD c 0

/-- The timestamp `1420070400`, 2015-01-01 00:00:00 UTC. -/
def referenceTime : time_t := ⟨1420070400, by decide⟩

/-- The timestamp `1420070399`, 2014-12-31 23:59:59 UTC. -/
def lastSecondOf2014 : time_t := ⟨1420070399, by decide⟩

/-- The timestamp `2177452800`, 2039-01-01 00:00:00 UTC. -/
def startOf2039 : time_t := ⟨2177452800, by decide⟩

/-- The timestamp `1451606400`, 2016-01-01 00:00:00 UTC. -/
def startOf2016 : time_t := ⟨1451606400, by decide⟩

/-- The timestamp `1467331200`, 2016-07-01 00:00:00 UTC. -/
def midOf2016 : time_t := ⟨1467331200, by decide⟩

/-- An amplitude table that is zero everywhere except at index 5 (constituent M2). -/
def onlyM2 : List ℚ :=
  [0, 0, 0, 0, 0, 3.038, 0, 0, 0, 0, 0, 0, 0, 0, 0, 0, 0, 0, 0, 0, 0, 0, 0, 0, 0, 0, 0, 0, 0, 0, 0, 0, 0, 0, 0, 0, 0]

/-- The contribution of constituent `i` in year row `yi` at hours value `h`, as the loop body adds it. -/
def harmonicTerm {α : Type} [Field α] (cos : α → α) (DEG_TO_RAD : α) (amp : List α)
    (yi : Nat) (h : α) (i : Nat) : α :=
  (entry2 Nodefactor yi i : α) * amp.getD i 0 *
    cos (((entry Speed i : α) * h + (entry2 Equilarg yi i : α) - (entry Kappa i : α)) * DEG_TO_RAD)

/-- The scratch variables after a pass of the loop body for constituent `i` that leaves `acc` in `tideHeight`. -/
def afterHarmonic {α : Type} [Field α] (amp : List α) (yi : Nat) (h acc : α) (i : Nat) : Globals α :=
  ⟨yi, h, amp.getD i 0, (entry Speed i : α), (entry2 Nodefactor yi i : α),
    (entry2 Equilarg yi i : α), (entry Kappa i : α), acc⟩

/-- The value `currentTide` stores in `YearIndx`: `Time.year(now) - startYear` as an `unsigned int`. -/
def yearIndex (year : time_t → Int) (now : time_t) : Nat :=
  ((year now - (startYear : Int)) % 4294967296).toNat

/-- The value `currentTide` leaves in `currHours` when it reads `startSecs[yi]`. -/
def hoursValue {α : Type} [Field α] (yi : Nat) (now : time_t) : α :=
  (((now.val - (startSecs.getD yi 0 : Int)) % 4294967296 : Int) : α) / 3600 + ((adjustGMT : Int) : α)

/-- The height `currentTideWith` returns when every read is in bounds: the accumulator started at
`datum` after the 37 passes of the loop. -/
def heightValue {α : Type} [Field α] (year : time_t → Int) (cos : α → α) (DEG_TO_RAD : α)
    (datum : α) (amp : List α) (now : time_t) : α :=
  (List.range 37).foldl
    (fun acc i => acc + harmonicTerm cos DEG_TO_RAD amp (yearIndex year now)
      (hoursValue (yearIndex year now) now) i) datum

/-- The scratch variables as `currentTideWith` leaves them when every read is in bounds. -/
def finalGlobals {α : Type} [Field α] (year : time_t → Int) (cos : α → α) (DEG_TO_RAD : α)
    (datum : α) (amp : List α) (now : time_t) : Globals α :=
  afterHarmonic amp (yearIndex year now) (hoursValue (yearIndex year now) now)
    (heightValue year cos DEG_TO_RAD datum amp now) 36

/-- The first second after year row `k`: the start of row `k + 1`, and for the last row the
start of that row plus 365 days. -/
def nextStart (k : Nat) : Int :=
  if k < 23 then (startSecs.getD (k + 1) 0 : Int) else (startSecs.getD 23 0 : Int) + 365 * 86400

/-- Day count (days since 1970-01-01) of January 1 of year `y`, for years from 1970 to 2100:
365 days for every year since 1970 plus one day for every leap year since 1972. -/
def yearStartDay (y : Int) : Int :=
  365 * (y - 1970) + (y - 1969) / 4

/-- Round a rational to the nearest integer, a tie going to the even integer. -/
def roundHalfEven (y : ℚ) : Int :=
  if y - ⌊y⌋ < 1 / 2 then ⌊y⌋
  else if 1 / 2 < y - ⌊y⌋ then ⌊y⌋ + 1
  else if ⌊y⌋ % 2 = 0 then ⌊y⌋ else ⌊y⌋ + 1

/-- The `float` nearest to a rational: IEEE binary32 with its 24-bit significand, rounded to
nearest, a tie going to the even significand. With `e` the binary exponent of `x`, the values a
`float` can take near `x` are the multiples of `2 ^ (e - 23)`. The exponent range (overflow,
subnormal numbers) is left out: the hours computation only produces 0 and values between
`1 / 3600` and `2 ^ 32`. -/
def f32 (x : ℚ) : ℚ :=
  (roundHalfEven (x / (2 : ℚ) ^ (Int.log 2 |x| - 23)) : ℚ) * (2 : ℚ) ^ (Int.log 2 |x| - 23)

/-- The first three assignments of `currentTide` (`YearIndx`, `currHours` twice) with `float`
read as IEEE binary32 instead of exact arithmetic: the `unsigned long` difference is converted to
`float`, divided by `float(3600)`, and `adjustGMT` is added, each result rounded to `float`
(3600 and 8 are `float` values as they stand). Returns the elapsed hours before the adjustment
and the value left in `currHours`. -/
def hoursF32 (year : time_t → Int) (now : time_t) : Except Fault (ℚ × ℚ) := do
  let yi := ((year now - (startYear : Int)) % 4294967296).toNat
  let s ← readAt .startSecs startSecs yi
  let elapsedHours := f32 (f32 (((now.val - (s : Int)) % 4294967296 : Int) : ℚ) / 3600)
  pure (elapsedHours, f32 (elapsedHours + ((adjustGMT : Int) : ℚ)))

/-- The timestamp `1483228799`, 2016-12-31 23:59:59 UTC. -/
def lastSecondOf2016 : time_t := ⟨1483228799, by decide⟩

/-! ## Reads -/

theorem readAt_getD {β : Type} (t : Table) (xs : List β) (i : Nat) (d : β) (h : i < xs.length) :
    readAt t xs i = .ok (xs.getD i d) := by
  simp [readAt, List.getD, List.getElem?_eq_getElem h]

theorem readAt_outOfBounds {β : Type} (t : Table) (xs : List β) (i : Nat) (h : xs.length ≤ i) :
    readAt t xs i = .error (.outOfBounds t i) := by
  simp [readAt, List.getElem?_eq_none h]

theorem readAt2_getD {β : Type} (t : Table) (xss : List (List β)) (r c : Nat) (d : β)
    (hr : r < xss.length) (hc : c < (xss.getD r []).length) :
    readAt2 t xss r c = .ok ((xss.getD r []).getD c d) := by
  have hrow : xss.getD r [] = xss[r] := by simp [List.getD, List.getElem?_eq_getElem hr]
  rw [hrow] at hc ⊢
  simp [readAt2, List.getD, List.getElem?_eq_getElem hr, List.getElem?_eq_getElem hc]

/-! ## Shapes of the compiled-in tables -/

theorem Amp_length : Amp.length = 37 := rfl

theorem Kappa_length : Kappa.length = 37 := rfl

theorem Speed_length : Speed.length = 37 := rfl

theorem startSecs_length : startSecs.length = 24 := rfl

theorem Equilarg_length : Equilarg.length = 24 := rfl

theorem Nodefactor_length : Nodefactor.length = 24 := rfl

theorem Equilarg_row_length : ∀ r, r < 24 → (Equilarg.getD r []).length = 37 := by decide

theorem Nodefactor_row_length : ∀ r, r < 24 → (Nodefactor.getD r []).length = 37 := by decide

/-! ## The summation loop -/

theorem harmonicWith_ok {α : Type} [Field α] (cos : α → α) (d : α) (amp : List α)
    (hamp : amp.length = 37) (g : Globals α) (hyi : g.YearIndx < 24) (i : Nat) (hi : i < 37) :
    harmonicWith cos d amp g i =
      .ok (afterHarmonic amp g.YearIndx g.currHours
        (g.tideHeight + harmonicTerm cos d amp g.YearIndx g.currHours i) i) := by
  have h1 := readAt2_getD .Nodefactor Nodefactor g.YearIndx i 0
    (by rw [Nodefactor_length]; exact hyi) (by rw [Nodefactor_row_length _ hyi]; exact hi)
  have h2 := readAt_getD .Amp amp i 0 (by rw [hamp]; exact hi)
  have h3 := readAt2_getD .Equilarg Equilarg g.YearIndx i 0
    (by rw [Equilarg_length]; exact hyi) (by rw [Equilarg_row_length _ hyi]; exact hi)
  have h4 := readAt_getD .Kappa Kappa i 0 (by rw [Kappa_length]; exact hi)
  have h5 := readAt_getD .Speed Speed i 0 (by rw [Speed_length]; exact hi)
  simp only [harmonicWith, h1, h2, h3, h4, h5, bind, Except.bind, pure, Except.pure,
    afterHarmonic, harmonicTerm, entry, entry2]

theorem foldlM_harmonicWith {α : Type} [Field α] (cos : α → α) (d : α) (amp : List α)
    (hamp : amp.length = 37) (l : List Nat) (hl : ∀ i ∈ l, i < 37) (g : Globals α)
    (hyi : g.YearIndx < 24) :
    ∃ g1, l.foldlM (harmonicWith cos d amp) g = .ok g1 ∧ g1.YearIndx = g.YearIndx ∧
      g1.currHours = g.currHours ∧
      g1.tideHeight =
        l.foldl (fun acc i => acc + harmonicTerm cos d amp g.YearIndx g.currHours i) g.tideHeight := by
  induction l generalizing g with
  | nil => exact ⟨g, rfl, rfl, rfl, rfl⟩
  | cons i l ih =>
    have hi : i < 37 := hl i (List.mem_cons_self i l)
    have hstep := harmonicWith_ok cos d amp hamp g hyi i hi
    obtain ⟨g1, h1, h2, h3, h4⟩ := ih (fun j hj => hl j (List.mem_cons_of_mem i hj))
      (afterHarmonic amp g.YearIndx g.currHours
        (g.tideHeight + harmonicTerm cos d amp g.YearIndx g.currHours i) i) hyi
    refine ⟨g1, ?_, h2, h3, ?_⟩
    · rw [List.foldlM_cons, hstep]
      exact h1
    · rw [h4]
      rfl

theorem loop_ok {α : Type} [Field α] (cos : α → α) (d : α) (amp : List α)
    (hamp : amp.length = 37) (g : Globals α) (hyi : g.YearIndx < 24) :
    (List.range 37).foldlM (harmonicWith cos d amp) g =
      .ok (afterHarmonic amp g.YearIndx g.currHours
        ((List.range 37).foldl
          (fun acc i => acc + harmonicTerm cos d amp g.YearIndx g.currHours i) g.tideHeight) 36) := by
  obtain ⟨g1, h1, h2, h3, h4⟩ := foldlM_harmonicWith cos d amp hamp (List.range 36)
    (fun i hi => by have := List.mem_range.mp hi; omega) g hyi
  have hstep := harmonicWith_ok cos d amp hamp g1 (by rw [h2]; exact hyi) 36 (by decide)
  rw [show (37 : Nat) = 36 + 1 from rfl, List.range_succ, List.foldlM_append, h1]
  simp only [bind, Except.bind, List.foldlM_cons, List.foldlM_nil, hstep, pure, Except.pure,
    List.foldl_append, List.foldl_cons, List.foldl_nil, h2, h3, h4]

theorem currentTideWith_ok {α : Type} [Field α] (year : time_t → Int) (cos : α → α) (d : α)
    (datum : α) (amp : List α) (hamp : amp.length = 37) (g : Globals α) (now : time_t)
    (hyi : yearIndex year now < 24) :
    currentTideWith year cos d datum amp g now =
      .ok (heightValue year cos d datum amp now, finalGlobals year cos d datum amp now) := by
  have hs := readAt_getD .startSecs startSecs (yearIndex year now) 0
    (by rw [startSecs_length]; exact hyi)
  unfold currentTideWith
  simp only [bind, Except.bind]
  rw [show ((year now - (startYear : Int)) % 4294967296).toNat = yearIndex year now from rfl, hs]
  simp only []
  rw [loop_ok cos d amp hamp _ hyi]
  rfl

theorem currentTideWith_outOfBounds {α : Type} [Field α] (year : time_t → Int) (cos : α → α)
    (d : α) (datum : α) (amp : List α) (g : Globals α) (now : time_t)
    (hyi : 24 ≤ yearIndex year now) :
    currentTideWith year cos d datum amp g now =
      .error (.outOfBounds .startSecs (yearIndex year now)) := by
  have hs := readAt_outOfBounds .startSecs startSecs (yearIndex year now)
    (by rw [startSecs_length]; exact hyi)
  unfold currentTideWith
  simp only [bind, Except.bind]
  rw [show ((year now - (startYear : Int)) % 4294967296).toNat = yearIndex year now from rfl, hs]

/-! ## Year index, hours value and the sum -/

theorem yearIndex_inRange (year : time_t → Int) (now : time_t)
    (hyi : 0 ≤ year now - 2015 ∧ year now - 2015 < 24) :
    yearIndex year now = (year now - 2015).toNat ∧ yearIndex year now < 24 := by
  have h : (year now - (startYear : Int)) % 4294967296 = year now - 2015 := by
    simp only [startYear, Nat.cast_ofNat]
    omega
  unfold yearIndex
  rw [h]
  omega

theorem foldl_add_eq_sum {α : Type} [Field α] (f : Nat → α) (n : Nat) (a : α) :
    (List.range n).foldl (fun acc i => acc + f i) a = a + ∑ i in Finset.range n, f i := by
  induction n with
  | zero => simp
  | succ n ih =>
    rw [List.range_succ, List.foldl_append, ih, Finset.sum_range_succ]
    simp [add_assoc]

theorem getD_map_cast {α : Type} [Field α] (xs : List ℚ) (i : Nat) :
    (xs.map (fun a : ℚ => (a : α))).getD i 0 = ((entry xs i : ℚ) : α) := by
  unfold entry
  have h := List.getD_map (fun a : ℚ => (a : α)) (l := xs) (n := i) (d := 0)
  simpa using h

theorem hoursValue_of_le (yi : Nat) (now : time_t)
    (hge : (startSecs.getD yi 0 : Int) ≤ now.val) :
    (hoursValue yi now : ℝ) = ((now.val - (startSecs.getD yi 0 : Int) : Int) : ℝ) / 3600 + 8 := by
  have hnow := now.property.2
  have hs : (0 : Int) ≤ (startSecs.getD yi 0 : Int) := Int.ofNat_nonneg _
  have h : (now.val - (startSecs.getD yi 0 : Int)) % 4294967296 =
      now.val - (startSecs.getD yi 0 : Int) := by
    apply Int.emod_eq_of_lt <;> omega
  unfold hoursValue
  rw [h]
  simp [adjustGMT]

theorem heightValue_eq_sum {α : Type} [Field α] (year : time_t → Int) (cos : α → α) (d : α)
    (datum : α) (amp : List α) (now : time_t) :
    heightValue year cos d datum amp now =
      datum + ∑ i in Finset.range 37,
        harmonicTerm cos d amp (yearIndex year now) (hoursValue (yearIndex year now) now) i := by
  unfold heightValue
  rw [foldl_add_eq_sum]

theorem currentTide_ok (year : time_t → Int) (g : Globals ℝ) (now : time_t)
    (hyi : yearIndex year now < 24) :
    currentTide year Real.cos (Real.pi / 180) g now =
      .ok (heightValue year Real.cos (Real.pi / 180) (Datum : ℝ)
            (Amp.map (fun a : ℚ => (a : ℝ))) now,
          finalGlobals year Real.cos (Real.pi / 180) (Datum : ℝ)
            (Amp.map (fun a : ℚ => (a : ℝ))) now) := by
  unfold currentTide
  rw [currentTideWith_ok year Real.cos (Real.pi / 180) (Datum : ℝ) _ (by simp [Amp_length]) g now hyi]

theorem yearIndex_outOfRange (year : time_t → Int) (now : time_t)
    (h : year now = 2014 ∨ year now = 2039) :
    yearIndex year now = (if year now = 2014 then 4294967295 else 24) ∧
      24 ≤ yearIndex year now := by
  unfold yearIndex
  rcases h with h | h <;> rw [h] <;> decide

theorem currentTide_outOfBounds (year : time_t → Int) (g : Globals ℝ) (now : time_t)
    (hyi : 24 ≤ yearIndex year now) :
    currentTide year Real.cos (Real.pi / 180) g now =
      .error (.outOfBounds .startSecs (yearIndex year now)) :=
  currentTideWith_outOfBounds year Real.cos (Real.pi / 180) _ _ g now hyi

theorem hoursValue_eq (yi : Nat) (now : time_t) :
    (hoursValue yi now : ℝ) =
      (((now.val - (startSecs.getD yi 0 : Int)) % 4294967296 : Int) : ℝ) / 3600 + 8 := by
  simp [hoursValue, adjustGMT]

/-! ## The claims -/

/-- C1: for every timestamp whose year index `yi = year - 2015` lies in `[0, 24)`, `currentTide`
returns a height, and that height is the accumulator started at `Datum` to which the 37
constituent terms `Nodefactor[yi][i] * Amp[i] * cos((Speed[i] * h + Equilarg[yi][i] - Kappa[i]) * π/180)`
are added once each, in the order `i = 0 .. 36`, with `h` the hours value the call computed
(left in `currHours`: the elapsed seconds as an `unsigned long`, divided by 3600, plus 8); in
exact real arithmetic this is `Datum` plus the sum of the 37 terms. -/
theorem currentTide_eq_datum_add_sum (year : time_t → Int) (g : Globals ℝ) (now : time_t)
    (hyi : 0 ≤ year now - 2015 ∧ year now - 2015 < 24) :
    ∃ g1 : Globals ℝ,
      currentTide year Real.cos (Real.pi / 180) g now = .ok (g1.tideHeight, g1) ∧
      g1.YearIndx = (year now - 2015).toNat ∧
      g1.currHours =
        (((now.val - (startSecs.getD (year now - 2015).toNat 0 : Int)) % 4294967296 : Int) : ℝ) /
          3600 + 8 ∧
      g1.tideHeight =
        (List.range 37).foldl (fun acc i => acc +
          (entry2 Nodefactor (year now - 2015).toNat i : ℝ) * (entry Amp i : ℝ) *
            Real.cos (((entry Speed i : ℝ) * g1.currHours +
              (entry2 Equilarg (year now - 2015).toNat i : ℝ) - (entry Kappa i : ℝ)) *
                (Real.pi / 180))) (Datum : ℝ) ∧
      g1.tideHeight =
        (Datum : ℝ) + ∑ i in Finset.range 37,
          (entry2 Nodefactor (year now - 2015).toNat i : ℝ) * (entry Amp i : ℝ) *
            Real.cos (((entry Speed i : ℝ) * g1.currHours +
              (entry2 Equilarg (year now - 2015).toNat i : ℝ) - (entry Kappa i : ℝ)) *
                (Real.pi / 180)) := by
  obtain ⟨hidx, hlt⟩ := yearIndex_inRange year now hyi
  refine ⟨finalGlobals year Real.cos (Real.pi / 180) (Datum : ℝ)
    (Amp.map (fun a : ℚ => (a : ℝ))) now, currentTide_ok year g now hlt, hidx, ?_, ?_, ?_⟩
  · simp only [finalGlobals, afterHarmonic, hidx, hoursValue_eq]
  · simp only [finalGlobals, afterHarmonic, heightValue, harmonicTerm, getD_map_cast, hidx]
  · simp only [finalGlobals, afterHarmonic, heightValue_eq_sum, harmonicTerm, getD_map_cast, hidx]

/-- Witness of C1 at 2015-01-01 00:00:00 UTC, the year taken in UTC. -/
theorem currentTide_eq_datum_add_sum_witness :
    (0 ≤ utcYear referenceTime - 2015 ∧ utcYear referenceTime - 2015 < 24) ∧
    ∃ g1 : Globals ℝ,
      currentTide utcYear Real.cos (Real.pi / 180) initGlobals referenceTime =
        .ok (g1.tideHeight, g1) ∧
      g1.YearIndx = (utcYear referenceTime - 2015).toNat ∧
      g1.currHours =
        (((referenceTime.val - (startSecs.getD (utcYear referenceTime - 2015).toNat 0 : Int)) %
          4294967296 : Int) : ℝ) / 3600 + 8 ∧
      g1.tideHeight =
        (List.range 37).foldl (fun acc i => acc +
          (entry2 Nodefactor (utcYear referenceTime - 2015).toNat i : ℝ) * (entry Amp i : ℝ) *
            Real.cos (((entry Speed i : ℝ) * g1.currHours +
              (entry2 Equilarg (utcYear referenceTime - 2015).toNat i : ℝ) - (entry Kappa i : ℝ)) *
                (Real.pi / 180))) (Datum : ℝ) ∧
      g1.tideHeight =
        (Datum : ℝ) + ∑ i in Finset.range 37,
          (entry2 Nodefactor (utcYear referenceTime - 2015).toNat i : ℝ) * (entry Amp i : ℝ) *
            Real.cos (((entry Speed i : ℝ) * g1.currHours +
              (entry2 Equilarg (utcYear referenceTime - 2015).toNat i : ℝ) - (entry Kappa i : ℝ)) *
                (Real.pi / 180)) :=
  ⟨by decide, currentTide_eq_datum_add_sum utcYear initGlobals referenceTime (by decide)⟩

/-- C2: for every timestamp `now` whose year index `yi` lies in `[0, 24)` and with
`now ≥ startSecs[yi]`, the call leaves `currHours = (now - startSecs[yi]) / 3600 + 8` and the
returned height is the sum evaluated at that hours value: the elapsed seconds are divided by
3600 first and `adjustGMT = 8` is added afterwards; it is neither subtracted nor added to the
seconds. -/
theorem currentTide_hours (year : time_t → Int) (g : Globals ℝ) (now : time_t)
    (hyi : 0 ≤ year now - 2015 ∧ year now - 2015 < 24)
    (hge : (startSecs.getD (year now - 2015).toNat 0 : Int) ≤ now.val) :
    ∃ g1 : Globals ℝ,
      currentTide year Real.cos (Real.pi / 180) g now =
        .ok ((Datum : ℝ) + ∑ i in Finset.range 37,
          (entry2 Nodefactor (year now - 2015).toNat i : ℝ) * (entry Amp i : ℝ) *
            Real.cos (((entry Speed i : ℝ) *
                (((now.val - (startSecs.getD (year now - 2015).toNat 0 : Int) : Int) : ℝ) / 3600 + 8) +
              (entry2 Equilarg (year now - 2015).toNat i : ℝ) - (entry Kappa i : ℝ)) *
                (Real.pi / 180)), g1) ∧
      g1.currHours =
        ((now.val - (startSecs.getD (year now - 2015).toNat 0 : Int) : Int) : ℝ) / 3600 + 8 ∧
      ((adjustGMT : Int) : ℝ) = 8 ∧
      g1.currHours ≠
        ((now.val - (startSecs.getD (year now - 2015).toNat 0 : Int) : Int) : ℝ) / 3600 - 8 ∧
      g1.currHours ≠
        (((now.val - (startSecs.getD (year now - 2015).toNat 0 : Int) : Int) : ℝ) + 8) / 3600 := by
  obtain ⟨hidx, hlt⟩ := yearIndex_inRange year now hyi
  have hh := hoursValue_of_le (year now - 2015).toNat now hge
  refine ⟨finalGlobals year Real.cos (Real.pi / 180) (Datum : ℝ)
    (Amp.map (fun a : ℚ => (a : ℝ))) now, ?_, ?_, ?_, ?_, ?_⟩
  · rw [currentTide_ok year g now hlt, heightValue_eq_sum]
    simp only [harmonicTerm, getD_map_cast, hidx, hh]
  · simp only [finalGlobals, afterHarmonic, hidx, hh]
  · simp [adjustGMT]
  · simp only [finalGlobals, afterHarmonic, hidx, hh]
    intro h
    linarith
  · simp only [finalGlobals, afterHarmonic, hidx, hh]
    intro h
    field_simp at h

/-- Witness of C2 at 2016-07-01 00:00:00 UTC, the year taken in UTC. -/
theorem currentTide_hours_witness :
    ((0 ≤ utcYear midOf2016 - 2015 ∧ utcYear midOf2016 - 2015 < 24) ∧
      (startSecs.getD (utcYear midOf2016 - 2015).toNat 0 : Int) ≤ midOf2016.val) ∧
    ∃ g1 : Globals ℝ,
      currentTide utcYear Real.cos (Real.pi / 180) initGlobals midOf2016 =
        .ok ((Datum : ℝ) + ∑ i in Finset.range 37,
          (entry2 Nodefactor (utcYear midOf2016 - 2015).toNat i : ℝ) * (entry Amp i : ℝ) *
            Real.cos (((entry Speed i : ℝ) *
                (((midOf2016.val -
                  (startSecs.getD (utcYear midOf2016 - 2015).toNat 0 : Int) : Int) : ℝ) / 3600 + 8) +
              (entry2 Equilarg (utcYear midOf2016 - 2015).toNat i : ℝ) - (entry Kappa i : ℝ)) *
                (Real.pi / 180)), g1) ∧
      g1.currHours =
        ((midOf2016.val -
          (startSecs.getD (utcYear midOf2016 - 2015).toNat 0 : Int) : Int) : ℝ) / 3600 + 8 ∧
      ((adjustGMT : Int) : ℝ) = 8 ∧
      g1.currHours ≠
        ((midOf2016.val -
          (startSecs.getD (utcYear midOf2016 - 2015).toNat 0 : Int) : Int) : ℝ) / 3600 - 8 ∧
      g1.currHours ≠
        (((midOf2016.val -
          (startSecs.getD (utcYear midOf2016 - 2015).toNat 0 : Int) : Int) : ℝ) + 8) / 3600 :=
  ⟨⟨by decide, by decide⟩, currentTide_hours utcYear initGlobals midOf2016 (by decide) (by decide)⟩

/-- C3: reference scenario. For the timestamp 1420070400 the UTC year is 2015, the year index
is 0, `startSecs[0]` is the timestamp itself, so the elapsed hours are 0 and the adjusted hours
are exactly 8, and `currentTide` returns `4.6818` plus the sum over `i = 0 .. 36` of
`Nodefactor[0][i] * Amp[i] * cos((Speed[i] * 8 + Equilarg[0][i] - Kappa[i]) * π/180)` with the
compiled-in tables, whatever the scratch variables held before the call. -/
theorem currentTide_reference (g : Globals ℝ) :
    referenceTime.val = 1420070400 ∧
    utcYear referenceTime = 2015 ∧
    yearIndex utcYear referenceTime = 0 ∧
    startSecs[0]? = some 1420070400 ∧
    ((referenceTime.val - (startSecs.getD 0 0 : Int) : Int) : ℝ) / 3600 = 0 ∧
    ∃ g1 : Globals ℝ,
      currentTide utcYear Real.cos (Real.pi / 180) g referenceTime =
        .ok ((4.6818 : ℝ) + ∑ i in Finset.range 37,
          (entry2 Nodefactor 0 i : ℝ) * (entry Amp i : ℝ) *
            Real.cos (((entry Speed i : ℝ) * 8 + (entry2 Equilarg 0 i : ℝ) - (entry Kappa i : ℝ)) *
              (Real.pi / 180)), g1) ∧
      g1.YearIndx = 0 ∧ g1.currHours = 8 := by
  have hidx : yearIndex utcYear referenceTime = 0 := by decide
  have hel : (referenceTime.val - (startSecs.getD 0 0 : Int) : Int) = 0 := by decide
  have hh : (hoursValue 0 referenceTime : ℝ) = 8 := by
    rw [hoursValue_of_le 0 referenceTime (by decide), hel]
    simp
  have hd : ((Datum : ℚ) : ℝ) = 4.6818 := by
    simp only [Datum]
    norm_num
  refine ⟨rfl, by decide, hidx, rfl, by rw [hel]; simp, ?_⟩
  refine ⟨finalGlobals utcYear Real.cos (Real.pi / 180) (Datum : ℝ)
    (Amp.map (fun a : ℚ => (a : ℝ))) referenceTime, ?_, ?_, ?_⟩
  · rw [currentTide_ok utcYear g referenceTime (by rw [hidx]; decide), heightValue_eq_sum]
    simp only [harmonicTerm, getD_map_cast, hidx, hh, hd]
  · simp only [finalGlobals, afterHarmonic, hidx]
  · simp only [finalGlobals, afterHarmonic, hidx, hh]

/-- C4, counterexample: at 1420070399 (UTC year 2014) the year index is the wrapped unsigned value
4294967295, which is not in `[0, 24)`, and `currentTide` reads `startSecs` at that index: a table
read outside `[0, 24)`, where the claim says there is none. -/
theorem currentTide_reads_outside_at_2014 :
    lastSecondOf2014.val = 1420070399 ∧
    utcYear lastSecondOf2014 = 2014 ∧
    yearIndex utcYear lastSecondOf2014 = 4294967295 ∧
    ¬ (yearIndex utcYear lastSecondOf2014 < 24) ∧
    currentTide utcYear Real.cos (Real.pi / 180) (initGlobals : Globals ℝ) lastSecondOf2014 =
      .error (.outOfBounds .startSecs 4294967295) := by
  have hidx : yearIndex utcYear lastSecondOf2014 = 4294967295 := by decide
  refine ⟨rfl, by decide, hidx, by rw [hidx]; decide, ?_⟩
  rw [currentTide_outOfBounds utcYear initGlobals lastSecondOf2014 (by rw [hidx]; decide), hidx]

/-- C4, amended: for every timestamp whose calendar year is 2014 or 2039, `currentTide` has no
range check and no error value to return: the unsigned year index is 4294967295 (year 2014) or
24 (year 2039), not in `[0, 24)`, and the first table read, `startSecs[YearIndx]`, is out of
bounds, so no height is produced. -/
theorem currentTide_year_outOfRange (year : time_t → Int) (g : Globals ℝ) (now : time_t)
    (h : year now = 2014 ∨ year now = 2039) :
    ¬ ((if year now = 2014 then 4294967295 else 24) < 24) ∧
    currentTide year Real.cos (Real.pi / 180) g now =
      .error (.outOfBounds .startSecs (if year now = 2014 then 4294967295 else 24)) ∧
    ∀ (height : ℝ) (g1 : Globals ℝ),
      currentTide year Real.cos (Real.pi / 180) g now ≠ .ok (height, g1) := by
  obtain ⟨hidx, hge⟩ := yearIndex_outOfRange year now h
  have hrun := currentTide_outOfBounds year g now hge
  rw [hidx] at hrun
  refine ⟨?_, hrun, ?_⟩
  · rcases h with h | h <;> rw [h] <;> decide
  · intro height g1 hok
    rw [hrun] at hok
    cases hok

/-- Witness of the amended C4 at 2177452800 (2039-01-01 00:00:00 UTC), the year taken in UTC. -/
theorem currentTide_year_outOfRange_witness :
    (utcYear startOf2039 = 2014 ∨ utcYear startOf2039 = 2039) ∧
    ¬ ((if utcYear startOf2039 = 2014 then 4294967295 else 24) < 24) ∧
    currentTide utcYear Real.cos (Real.pi / 180) (initGlobals : Globals ℝ) startOf2039 =
      .error (.outOfBounds .startSecs (if utcYear startOf2039 = 2014 then 4294967295 else 24)) ∧
    ∀ (height : ℝ) (g1 : Globals ℝ),
      currentTide utcYear Real.cos (Real.pi / 180) (initGlobals : Globals ℝ) startOf2039 ≠
        .ok (height, g1) :=
  ⟨Or.inr (by decide),
    currentTide_year_outOfRange utcYear initGlobals startOf2039 (Or.inr (by decide))⟩

/-- C5: determinism. For every timestamp with an in-range year index there are one height and
one final state of the scratch variables that `currentTide` produces from every initial value of
the scratch variables; in particular a second call with the same timestamp, started from the
state the first call left, returns the same height. -/
theorem currentTide_deterministic (year : time_t → Int) (now : time_t)
    (hyi : 0 ≤ year now - 2015 ∧ year now - 2015 < 24) :
    ∃ (height : ℝ) (gEnd : Globals ℝ),
      (∀ g : Globals ℝ, currentTide year Real.cos (Real.pi / 180) g now = .ok (height, gEnd)) ∧
      (∀ (g g1 : Globals ℝ) (h1 : ℝ),
        currentTide year Real.cos (Real.pi / 180) g now = .ok (h1, g1) →
          currentTide year Real.cos (Real.pi / 180) g1 now = .ok (h1, g1)) := by
  obtain ⟨_, hlt⟩ := yearIndex_inRange year now hyi
  refine ⟨_, _, fun g => currentTide_ok year g now hlt, ?_⟩
  intro g g1 h1 hrun
  rw [← hrun, currentTide_ok year g now hlt, currentTide_ok year g1 now hlt]

/-- Witness of C5 at 2016-07-01 00:00:00 UTC, the year taken in UTC. -/
theorem currentTide_deterministic_witness :
    (0 ≤ utcYear midOf2016 - 2015 ∧ utcYear midOf2016 - 2015 < 24) ∧
    ∃ (height : ℝ) (gEnd : Globals ℝ),
      (∀ g : Globals ℝ,
        currentTide utcYear Real.cos (Real.pi / 180) g midOf2016 = .ok (height, gEnd)) ∧
      (∀ (g g1 : Globals ℝ) (h1 : ℝ),
        currentTide utcYear Real.cos (Real.pi / 180) g midOf2016 = .ok (h1, g1) →
          currentTide utcYear Real.cos (Real.pi / 180) g1 midOf2016 = .ok (h1, g1)) :=
  ⟨by decide, currentTide_deterministic utcYear midOf2016 (by decide)⟩

/-- C6, counterexample: called at 2016-01-01 00:00:00 UTC from the start-up state, `currentTide`
returns a height and leaves `YearIndx = 1`, where it was `0` before the call: the shared state
after the call differs from the state before it. -/
theorem currentTide_changes_YearIndx :
    ∃ (height : ℝ) (g1 : Globals ℝ),
      currentTide utcYear Real.cos (Real.pi / 180) (initGlobals : Globals ℝ) startOf2016 =
        .ok (height, g1) ∧
      (initGlobals : Globals ℝ).YearIndx = 0 ∧ g1.YearIndx = 1 ∧ g1 ≠ initGlobals := by
  have hidx : yearIndex utcYear startOf2016 = 1 := by decide
  refine ⟨_, _, currentTide_ok utcYear initGlobals startOf2016 (by rw [hidx]; decide), rfl, ?_, ?_⟩
  · simp only [finalGlobals, afterHarmonic, hidx]
  · intro h
    have h2 := congrArg Globals.YearIndx h
    simp only [finalGlobals, afterHarmonic, hidx, initGlobals] at h2
    exact absurd h2 (by decide)

/-- C6, amended: for every timestamp with an in-range year index, a call overwrites every
scratch variable, whatever it held before: afterwards `YearIndx` is the year index, `currHours`
the hours value, `currAmp`, `currSpeed`, `currNodefactor`, `currEquilarg` and `currKappa` the
table entries of the last constituent (index 36), and `tideHeight` the returned height. The
tables are constants and are not part of the state a call can change. -/
theorem currentTide_final_scratch (year : time_t → Int) (g : Globals ℝ) (now : time_t)
    (hyi : 0 ≤ year now - 2015 ∧ year now - 2015 < 24) :
    ∃ (height : ℝ) (g1 : Globals ℝ),
      currentTide year Real.cos (Real.pi / 180) g now = .ok (height, g1) ∧
      g1.YearIndx = (year now - 2015).toNat ∧
      g1.currHours =
        (((now.val - (startSecs.getD (year now - 2015).toNat 0 : Int)) % 4294967296 : Int) : ℝ) /
          3600 + 8 ∧
      g1.currAmp = (entry Amp 36 : ℝ) ∧
      g1.currSpeed = (entry Speed 36 : ℝ) ∧
      g1.currNodefactor = (entry2 Nodefactor (year now - 2015).toNat 36 : ℝ) ∧
      g1.currEquilarg = (entry2 Equilarg (year now - 2015).toNat 36 : ℝ) ∧
      g1.currKappa = (entry Kappa 36 : ℝ) ∧
      g1.tideHeight = height := by
  obtain ⟨hidx, hlt⟩ := yearIndex_inRange year now hyi
  refine ⟨_, _, currentTide_ok year g now hlt, ?_, ?_, ?_, ?_, ?_, ?_, ?_, ?_⟩
  · simp only [finalGlobals, afterHarmonic, hidx]
  · simp only [finalGlobals, afterHarmonic, hidx, hoursValue_eq]
  · simp only [finalGlobals, afterHarmonic, getD_map_cast]
  · simp only [finalGlobals, afterHarmonic]
  · simp only [finalGlobals, afterHarmonic, hidx]
  · simp only [finalGlobals, afterHarmonic, hidx]
  · simp only [finalGlobals, afterHarmonic]
  · simp only [finalGlobals, afterHarmonic]

/-- Witness of the amended C6 at 2016-01-01 00:00:00 UTC, the year taken in UTC. -/
theorem currentTide_final_scratch_witness :
    (0 ≤ utcYear startOf2016 - 2015 ∧ utcYear startOf2016 - 2015 < 24) ∧
    ∃ (height : ℝ) (g1 : Globals ℝ),
      currentTide utcYear Real.cos (Real.pi / 180) (initGlobals : Globals ℝ) startOf2016 =
        .ok (height, g1) ∧
      g1.YearIndx = (utcYear startOf2016 - 2015).toNat ∧
      g1.currHours =
        (((startOf2016.val - (startSecs.getD (utcYear startOf2016 - 2015).toNat 0 : Int)) %
          4294967296 : Int) : ℝ) / 3600 + 8 ∧
      g1.currAmp = (entry Amp 36 : ℝ) ∧
      g1.currSpeed = (entry Speed 36 : ℝ) ∧
      g1.currNodefactor = (entry2 Nodefactor (utcYear startOf2016 - 2015).toNat 36 : ℝ) ∧
      g1.currEquilarg = (entry2 Equilarg (utcYear startOf2016 - 2015).toNat 36 : ℝ) ∧
      g1.currKappa = (entry Kappa 36 : ℝ) ∧
      g1.tideHeight = height :=
  ⟨by decide, currentTide_final_scratch utcYear initGlobals startOf2016 (by decide)⟩

/-- C7: datum offset. With the routine parameterised by the datum value, for every timestamp
with an in-range year index and every two datum values `d1`, `d2`, both runs return a height,
the heights differ by exactly `d2 - d1`, and each height minus its datum is the same sum of the
37 cosine terms, an expression in which the datum does not occur. -/
theorem currentTideWith_datum_offset (year : time_t → Int) (g : Globals ℝ) (now : time_t)
    (hyi : 0 ≤ year now - 2015 ∧ year now - 2015 < 24) (d1 d2 : ℝ) :
    ∃ (h1 h2 : ℝ) (g1 g2 : Globals ℝ),
      currentTideWith year Real.cos (Real.pi / 180) d1 (Amp.map (fun a : ℚ => (a : ℝ))) g now =
        .ok (h1, g1) ∧
      currentTideWith year Real.cos (Real.pi / 180) d2 (Amp.map (fun a : ℚ => (a : ℝ))) g now =
        .ok (h2, g2) ∧
      h2 - h1 = d2 - d1 ∧
      h1 - d1 = ∑ i in Finset.range 37,
        (entry2 Nodefactor (year now - 2015).toNat i : ℝ) * (entry Amp i : ℝ) *
          Real.cos (((entry Speed i : ℝ) *
              ((((now.val - (startSecs.getD (year now - 2015).toNat 0 : Int)) % 4294967296 : Int) : ℝ) /
                3600 + 8) +
            (entry2 Equilarg (year now - 2015).toNat i : ℝ) - (entry Kappa i : ℝ)) *
              (Real.pi / 180)) ∧
      h2 - d2 = ∑ i in Finset.range 37,
        (entry2 Nodefactor (year now - 2015).toNat i : ℝ) * (entry Amp i : ℝ) *
          Real.cos (((entry Speed i : ℝ) *
              ((((now.val - (startSecs.getD (year now - 2015).toNat 0 : Int)) % 4294967296 : Int) : ℝ) /
                3600 + 8) +
            (entry2 Equilarg (year now - 2015).toNat i : ℝ) - (entry Kappa i : ℝ)) *
              (Real.pi / 180)) := by
  obtain ⟨hidx, hlt⟩ := yearIndex_inRange year now hyi
  have hamp : (Amp.map (fun a : ℚ => (a : ℝ))).length = 37 := by simp [Amp_length]
  refine ⟨_, _, _, _,
    currentTideWith_ok year Real.cos (Real.pi / 180) d1 _ hamp g now hlt,
    currentTideWith_ok year Real.cos (Real.pi / 180) d2 _ hamp g now hlt, ?_, ?_, ?_⟩
  · rw [heightValue_eq_sum, heightValue_eq_sum]
    ring
  · rw [heightValue_eq_sum]
    simp only [harmonicTerm, getD_map_cast, hidx, hoursValue_eq]
    ring
  · rw [heightValue_eq_sum]
    simp only [harmonicTerm, getD_map_cast, hidx, hoursValue_eq]
    ring

/-- Witness of C7 at 2016-07-01 00:00:00 UTC, the year taken in UTC, for the datum values 0 and 1. -/
theorem currentTideWith_datum_offset_witness :
    (0 ≤ utcYear midOf2016 - 2015 ∧ utcYear midOf2016 - 2015 < 24) ∧
    ∃ (h1 h2 : ℝ) (g1 g2 : Globals ℝ),
      currentTideWith utcYear Real.cos (Real.pi / 180) 0 (Amp.map (fun a : ℚ => (a : ℝ)))
        initGlobals midOf2016 = .ok (h1, g1) ∧
      currentTideWith utcYear Real.cos (Real.pi / 180) 1 (Amp.map (fun a : ℚ => (a : ℝ)))
        initGlobals midOf2016 = .ok (h2, g2) ∧
      h2 - h1 = 1 - 0 ∧
      h1 - 0 = ∑ i in Finset.range 37,
        (entry2 Nodefactor (utcYear midOf2016 - 2015).toNat i : ℝ) * (entry Amp i : ℝ) *
          Real.cos (((entry Speed i : ℝ) *
              ((((midOf2016.val - (startSecs.getD (utcYear midOf2016 - 2015).toNat 0 : Int)) %
                4294967296 : Int) : ℝ) / 3600 + 8) +
            (entry2 Equilarg (utcYear midOf2016 - 2015).toNat i : ℝ) - (entry Kappa i : ℝ)) *
              (Real.pi / 180)) ∧
      h2 - 1 = ∑ i in Finset.range 37,
        (entry2 Nodefactor (utcYear midOf2016 - 2015).toNat i : ℝ) * (entry Amp i : ℝ) *
          Real.cos (((entry Speed i : ℝ) *
              ((((midOf2016.val - (startSecs.getD (utcYear midOf2016 - 2015).toNat 0 : Int)) %
                4294967296 : Int) : ℝ) / 3600 + 8) +
            (entry2 Equilarg (utcYear midOf2016 - 2015).toNat i : ℝ) - (entry Kappa i : ℝ)) *
              (Real.pi / 180)) :=
  ⟨by decide, currentTideWith_datum_offset utcYear initGlobals midOf2016 (by decide) 0 1⟩

/-- C8: single-constituent isolation. With the routine parameterised by the amplitude table,
for every timestamp with an in-range year index, every index `j` in `0 .. 36` and every
37-entry amplitude table that is zero at every index other than `j`, the returned height is
exactly `datum + Nodefactor[yi][j] * amplitude[j] * cos((Speed[j] * h + Equilarg[yi][j] - Kappa[j]) * π/180)`,
with `yi` the year index and `h` the hours value of the call. -/
theorem currentTideWith_single_constituent (year : time_t → Int) (g : Globals ℝ) (now : time_t)
    (hyi : 0 ≤ year now - 2015 ∧ year now - 2015 < 24) (datum : ℝ) (amp : List ℝ)
    (hamp : amp.length = 37) (j : Nat) (hj : j < 37)
    (hz : ∀ i, i < 37 → i ≠ j → amp.getD i 0 = 0) :
    ∃ g1 : Globals ℝ,
      currentTideWith year Real.cos (Real.pi / 180) datum amp g now =
        .ok (datum + (entry2 Nodefactor (year now - 2015).toNat j : ℝ) * amp.getD j 0 *
          Real.cos (((entry Speed j : ℝ) * g1.currHours +
            (entry2 Equilarg (year now - 2015).toNat j : ℝ) - (entry Kappa j : ℝ)) *
              (Real.pi / 180)), g1) ∧
      g1.YearIndx = (year now - 2015).toNat ∧
      g1.currHours =
        (((now.val - (startSecs.getD (year now - 2015).toNat 0 : Int)) % 4294967296 : Int) : ℝ) /
          3600 + 8 := by
  obtain ⟨hidx, hlt⟩ := yearIndex_inRange year now hyi
  have hsum : ∑ i in Finset.range 37,
      harmonicTerm Real.cos (Real.pi / 180) amp (yearIndex year now)
        (hoursValue (yearIndex year now) now) i =
      harmonicTerm Real.cos (Real.pi / 180) amp (yearIndex year now)
        (hoursValue (yearIndex year now) now) j := by
    apply Finset.sum_eq_single j
    · intro i hi hne
      have hi37 : i < 37 := Finset.mem_range.mp hi
      simp only [harmonicTerm, hz i hi37 hne, mul_zero, zero_mul]
    · intro hnot
      exact absurd (Finset.mem_range.mpr hj) hnot
  refine ⟨finalGlobals year Real.cos (Real.pi / 180) datum amp now, ?_, ?_, ?_⟩
  · rw [currentTideWith_ok year Real.cos (Real.pi / 180) datum amp hamp g now hlt,
      heightValue_eq_sum, hsum]
    simp only [harmonicTerm, finalGlobals, afterHarmonic, hidx]
  · simp only [finalGlobals, afterHarmonic, hidx]
  · simp only [finalGlobals, afterHarmonic, hidx, hoursValue_eq]

/-- Witness of C8 at 2015-01-01 00:00:00 UTC, the year taken in UTC, with datum 0 and the
amplitude table that keeps only constituent 5 (M2). -/
theorem currentTideWith_single_constituent_witness :
    ((0 ≤ utcYear referenceTime - 2015 ∧ utcYear referenceTime - 2015 < 24) ∧
      (onlyM2.map (fun a : ℚ => (a : ℝ))).length = 37 ∧ 5 < 37 ∧
      (∀ i, i < 37 → i ≠ 5 → (onlyM2.map (fun a : ℚ => (a : ℝ))).getD i 0 = 0)) ∧
    ∃ g1 : Globals ℝ,
      currentTideWith utcYear Real.cos (Real.pi / 180) 0 (onlyM2.map (fun a : ℚ => (a : ℝ)))
          initGlobals referenceTime =
        .ok (0 + (entry2 Nodefactor (utcYear referenceTime - 2015).toNat 5 : ℝ) *
          (onlyM2.map (fun a : ℚ => (a : ℝ))).getD 5 0 *
          Real.cos (((entry Speed 5 : ℝ) * g1.currHours +
            (entry2 Equilarg (utcYear referenceTime - 2015).toNat 5 : ℝ) - (entry Kappa 5 : ℝ)) *
              (Real.pi / 180)), g1) ∧
      g1.YearIndx = (utcYear referenceTime - 2015).toNat ∧
      g1.currHours =
        (((referenceTime.val - (startSecs.getD (utcYear referenceTime - 2015).toNat 0 : Int)) %
          4294967296 : Int) : ℝ) / 3600 + 8 :=
  have hz : ∀ i, i < 37 → i ≠ 5 → (onlyM2.map (fun a : ℚ => (a : ℝ))).getD i 0 = 0 := by
    intro i hi hne
    have hq : ∀ k, k < 37 → k ≠ 5 → entry onlyM2 k = 0 := by decide
    rw [getD_map_cast, hq i hi hne, Rat.cast_zero]
  ⟨⟨by decide, by simp [onlyM2], by decide, hz⟩,
    currentTideWith_single_constituent utcYear initGlobals referenceTime (by decide) 0
      (onlyM2.map (fun a : ℚ => (a : ℝ))) (by simp [onlyM2]) 5 (by decide) hz⟩

/-- C9: year-start table. For every row index `k` in `0 .. 23`, `startSecs[k]` is the Unix time
of 00:00:00 UTC on January 1 of year `2015 + k` (86400 seconds for each day since 1970-01-01, no
leap seconds); the table has exactly these 24 rows, so no year from 2015 to 2038 is missing; the
rows are strictly increasing; and each row exceeds the one before it by `366 * 86400` seconds
when year `2015 + k` is a Gregorian leap year and by `365 * 86400` seconds otherwise. -/
theorem startSecs_year_starts :
    startSecs.length = 24 ∧
    (∀ k : Fin 24, startSecs[k.val]? = some (unixYearStart (2015 + k.val))) ∧
    startSecs = (List.range 24).map (fun k => unixYearStart (2015 + k)) ∧
    List.Pairwise (fun a b => a < b) startSecs ∧
    (∀ k : Fin 23, startSecs.getD (k.val + 1) 0 =
      startSecs.getD k.val 0 + (if isLeapYear (2015 + k.val) then 366 * 86400 else 365 * 86400)) := by
  refine ⟨rfl, by decide, by decide, by decide, by decide⟩

/-- C10: in-range safety. For every timestamp whose calendar year `y` satisfies
`2015 ≤ y ≤ 2038`, the year index is `y - 2015`, every table read of `currentTide` is in bounds
(`startSecs[y-2015]`, and `Nodefactor[y-2015][i]`, `Equilarg[y-2015][i]`, `Amp[i]`, `Kappa[i]`,
`Speed[i]` for every `i` in `0 .. 36`), and the call returns a height: it never ends in the
out-of-bounds branch. -/
theorem currentTide_inRange_safe (year : time_t → Int) (g : Globals ℝ) (now : time_t)
    (hy : 2015 ≤ year now ∧ year now ≤ 2038) :
    yearIndex year now = (year now - 2015).toNat ∧
    (∃ s, readAt .startSecs startSecs (year now - 2015).toNat = .ok s) ∧
    (∀ i, i < 37 →
      (∃ v, readAt2 .Nodefactor Nodefactor (year now - 2015).toNat i = .ok v) ∧
      (∃ v, readAt2 .Equilarg Equilarg (year now - 2015).toNat i = .ok v) ∧
      (∃ v, readAt .Amp Amp i = .ok v) ∧
      (∃ v, readAt .Kappa Kappa i = .ok v) ∧
      (∃ v, readAt .Speed Speed i = .ok v)) ∧
    (∃ (height : ℝ) (g1 : Globals ℝ),
      currentTide year Real.cos (Real.pi / 180) g now = .ok (height, g1)) ∧
    (∀ (t : Table) (idx : Nat),
      currentTide year Real.cos (Real.pi / 180) g now ≠ .error (.outOfBounds t idx)) := by
  obtain ⟨hidx, hlt⟩ := yearIndex_inRange year now (by omega)
  have hrun := currentTide_ok year g now hlt
  rw [hidx] at hlt
  refine ⟨hidx, ⟨_, readAt_getD .startSecs startSecs _ 0 (by rw [startSecs_length]; exact hlt)⟩,
    ?_, ⟨_, _, hrun⟩, ?_⟩
  · intro i hi
    exact ⟨⟨_, readAt2_getD .Nodefactor Nodefactor _ i 0 (by rw [Nodefactor_length]; exact hlt)
        (by rw [Nodefactor_row_length _ hlt]; exact hi)⟩,
      ⟨_, readAt2_getD .Equilarg Equilarg _ i 0 (by rw [Equilarg_length]; exact hlt)
        (by rw [Equilarg_row_length _ hlt]; exact hi)⟩,
      ⟨_, readAt_getD .Amp Amp i 0 (by rw [Amp_length]; exact hi)⟩,
      ⟨_, readAt_getD .Kappa Kappa i 0 (by rw [Kappa_length]; exact hi)⟩,
      ⟨_, readAt_getD .Speed Speed i 0 (by rw [Speed_length]; exact hi)⟩⟩
  · intro t idx herr
    rw [hrun] at herr
    cases herr

/-- Witness of C10 at 2016-01-01 00:00:00 UTC, the year taken in UTC. -/
theorem currentTide_inRange_safe_witness :
    (2015 ≤ utcYear startOf2016 ∧ utcYear startOf2016 ≤ 2038) ∧
    yearIndex utcYear startOf2016 = (utcYear startOf2016 - 2015).toNat ∧
    (∃ s, readAt .startSecs startSecs (utcYear startOf2016 - 2015).toNat = .ok s) ∧
    (∀ i, i < 37 →
      (∃ v, readAt2 .Nodefactor Nodefactor (utcYear startOf2016 - 2015).toNat i = .ok v) ∧
      (∃ v, readAt2 .Equilarg Equilarg (utcYear startOf2016 - 2015).toNat i = .ok v) ∧
      (∃ v, readAt .Amp Amp i = .ok v) ∧
      (∃ v, readAt .Kappa Kappa i = .ok v) ∧
      (∃ v, readAt .Speed Speed i = .ok v)) ∧
    (∃ (height : ℝ) (g1 : Globals ℝ),
      currentTide utcYear Real.cos (Real.pi / 180) (initGlobals : Globals ℝ) startOf2016 =
        .ok (height, g1)) ∧
    (∀ (t : Table) (idx : Nat),
      currentTide utcYear Real.cos (Real.pi / 180) (initGlobals : Globals ℝ) startOf2016 ≠
        .error (.outOfBounds t idx)) :=
  ⟨by decide, currentTide_inRange_safe utcYear initGlobals startOf2016 (by decide)⟩

/-- C11: monotonic year indexing. For every two timestamps whose calendar years are supported
(`2015 ≤ y ≤ 2038`), `currentTide` returns a height for each and leaves in `YearIndx` the
unsigned difference `year - startYear`, which equals `y - 2015` without wrap-around and lies in
`[0, 24)`; and if the first year is earlier than the second, the first index is strictly less
than the second. -/
theorem currentTide_yearIndex_monotonic (year : time_t → Int) (g : Globals ℝ)
    (now1 now2 : time_t)
    (hy1 : 2015 ≤ year now1 ∧ year now1 ≤ 2038) (hy2 : 2015 ≤ year now2 ∧ year now2 ≤ 2038) :
    ∃ (height1 height2 : ℝ) (g1 g2 : Globals ℝ),
      currentTide year Real.cos (Real.pi / 180) g now1 = .ok (height1, g1) ∧
      currentTide year Real.cos (Real.pi / 180) g now2 = .ok (height2, g2) ∧
      (year now1 - (startYear : Int)) % 4294967296 = year now1 - 2015 ∧
      (year now2 - (startYear : Int)) % 4294967296 = year now2 - 2015 ∧
      (g1.YearIndx : Int) = year now1 - 2015 ∧ g1.YearIndx < 24 ∧
      (g2.YearIndx : Int) = year now2 - 2015 ∧ g2.YearIndx < 24 ∧
      (year now1 < year now2 → g1.YearIndx < g2.YearIndx) := by
  obtain ⟨hidx1, hlt1⟩ := yearIndex_inRange year now1 (by omega)
  obtain ⟨hidx2, hlt2⟩ := yearIndex_inRange year now2 (by omega)
  refine ⟨_, _, _, _, currentTide_ok year g now1 hlt1, currentTide_ok year g now2 hlt2,
    ?_, ?_, ?_, ?_, ?_, ?_, ?_⟩
  · simp only [startYear, Nat.cast_ofNat]
    omega
  · simp only [startYear, Nat.cast_ofNat]
    omega
  · simp only [finalGlobals, afterHarmonic, hidx1]
    omega
  · simp only [finalGlobals, afterHarmonic]
    exact hlt1
  · simp only [finalGlobals, afterHarmonic, hidx2]
    omega
  · simp only [finalGlobals, afterHarmonic]
    exact hlt2
  · intro hlt
    simp only [finalGlobals, afterHarmonic, hidx1, hidx2]
    omega

/-- Witness of C11 at 2015-01-01 and 2016-01-01 00:00:00 UTC, the year taken in UTC. -/
theorem currentTide_yearIndex_monotonic_witness :
    ((2015 ≤ utcYear referenceTime ∧ utcYear referenceTime ≤ 2038) ∧
      (2015 ≤ utcYear startOf2016 ∧ utcYear startOf2016 ≤ 2038)) ∧
    ∃ (height1 height2 : ℝ) (g1 g2 : Globals ℝ),
      currentTide utcYear Real.cos (Real.pi / 180) initGlobals referenceTime = .ok (height1, g1) ∧
      currentTide utcYear Real.cos (Real.pi / 180) initGlobals startOf2016 = .ok (height2, g2) ∧
      (utcYear referenceTime - (startYear : Int)) % 4294967296 = utcYear referenceTime - 2015 ∧
      (utcYear startOf2016 - (startYear : Int)) % 4294967296 = utcYear startOf2016 - 2015 ∧
      (g1.YearIndx : Int) = utcYear referenceTime - 2015 ∧ g1.YearIndx < 24 ∧
      (g2.YearIndx : Int) = utcYear startOf2016 - 2015 ∧ g2.YearIndx < 24 ∧
      (utcYear referenceTime < utcYear startOf2016 → g1.YearIndx < g2.YearIndx) :=
  ⟨⟨by decide, by decide⟩,
    currentTide_yearIndex_monotonic utcYear initGlobals referenceTime startOf2016
      (by decide) (by decide)⟩

/-- C12: well-formed configuration. `Amp`, `Kappa` and `Speed` each list exactly 37 values;
`Equilarg` and `Nodefactor` each list exactly 24 rows and every row lists exactly 37 values, so
no row is shorter than the declared width; `startSecs` lists exactly 24 values, one per row of
`Equilarg` and of `Nodefactor`. -/
theorem tables_wellFormed :
    Amp.length = 37 ∧ Kappa.length = 37 ∧ Speed.length = 37 ∧
    Equilarg.length = 24 ∧ (∀ row ∈ Equilarg, row.length = 37) ∧
    Nodefactor.length = 24 ∧ (∀ row ∈ Nodefactor, row.length = 37) ∧
    startSecs.length = 24 ∧ startSecs.length = Equilarg.length ∧
    startSecs.length = Nodefactor.length := by
  refine ⟨rfl, rfl, rfl, rfl, by decide, rfl, by decide, rfl, rfl, rfl⟩

/-! ## Calendar years and table rows -/

theorem civilYear_bounds (d : Int) (h1 : 16436 ≤ d) (h2 : d < 25202) :
    2015 ≤ civilYear d ∧ civilYear d ≤ 2038 ∧
    yearStartDay (civilYear d) ≤ d ∧ d < yearStartDay (civilYear d + 1) := by
  unfold yearStartDay civilYear
  simp only []
  have hz : (d + 719468) / 146097 = 5 := by omega
  have hdoe : (d + 719468) % 146097 = d - 11017 := by omega
  rw [hz, hdoe]
  have h36 : (d - 11017) / 36524 = 0 := by omega
  have h14 : (d - 11017) / 146096 = 0 := by omega
  rw [h36, h14]
  generalize hq : (d - 11017) / 1460 = q
  generalize hy : (d - 11017 - q + 0 - 0) / 365 = yoe
  have hyr : 14 ≤ yoe ∧ yoe ≤ 38 := by omega
  obtain ⟨hy1, hy2⟩ := hyr
  interval_cases yoe <;> (split <;> omega)

theorem startSecs_eq_yearStartDay :
    ∀ k, k < 24 → (startSecs.getD k 0 : Int) = 86400 * yearStartDay (2015 + (k : Int)) := by
  decide

theorem nextStart_eq_yearStartDay :
    ∀ k, k < 24 → nextStart k = 86400 * yearStartDay (2015 + (k : Int) + 1) := by
  decide

theorem startSecs_mono :
    ∀ a, a < 24 → ∀ b, b < 24 → a ≤ b → startSecs.getD a 0 ≤ startSecs.getD b 0 := by
  decide

theorem nextStart_le : ∀ k, k < 24 → nextStart k ≤ (startSecs.getD k 0 : Int) + 31622400 := by
  decide

theorem utcYear_row (now : time_t) (hlo : 1420070400 ≤ now.val) (hhi : now.val < 2177452800) :
    0 ≤ utcYear now - 2015 ∧ utcYear now - 2015 < 24 ∧
    (startSecs.getD (utcYear now - 2015).toNat 0 : Int) ≤ now.val ∧
    now.val < nextStart (utcYear now - 2015).toNat := by
  obtain ⟨h1, h2, h3, h4⟩ := civilYear_bounds (now.val / 86400) (by omega) (by omega)
  unfold utcYear
  have hk : (civilYear (now.val / 86400) - 2015).toNat < 24 := by omega
  have hcast : (2015 : Int) + ((civilYear (now.val / 86400) - 2015).toNat : Int) =
      civilYear (now.val / 86400) := by omega
  have hs := startSecs_eq_yearStartDay _ hk
  have hn := nextStart_eq_yearStartDay _ hk
  rw [hcast] at hs hn
  rw [hs, hn]
  refine ⟨by omega, by omega, ?_, ?_⟩ <;> omega

/-! ## The hours value in `float` arithmetic -/

theorem roundHalfEven_le (y : ℚ) (c : Int) (h : y ≤ (c : ℚ)) : roundHalfEven y ≤ c := by
  have hf : ⌊y⌋ ≤ c := by
    have := Int.floor_le y
    exact_mod_cast le_trans this h
  unfold roundHalfEven
  have hstep : ¬ (y - (⌊y⌋ : ℚ) < 1 / 2) → ⌊y⌋ + 1 ≤ c := by
    intro hn
    have h1 : ((⌊y⌋ : Int) : ℚ) < (c : ℚ) := by linarith
    have h2 : ⌊y⌋ < c := by exact_mod_cast h1
    omega
  split_ifs with h1 h2 h3
  · exact hf
  · exact hstep h1
  · exact hf
  · exact hstep h1

theorem le_roundHalfEven (y : ℚ) (c : Int) (h : (c : ℚ) ≤ y) : c ≤ roundHalfEven y := by
  have hf : c ≤ ⌊y⌋ := Int.le_floor.mpr h
  unfold roundHalfEven
  split_ifs <;> omega

theorem f32_log_le (x : ℚ) (j : Int) (hx : 0 ≤ x) (hj : 0 ≤ j) (hlt : x < (2 : ℚ) ^ (j + 24)) :
    Int.log 2 |x| - 23 ≤ j := by
  rw [abs_of_nonneg hx]
  rcases hx.eq_or_lt with h0 | hpos
  · rw [← h0, Int.log_zero_right]
    omega
  · have h := (Int.lt_zpow_iff_log_lt (b := 2) (by norm_num) hpos).mp (by simpa using hlt)
    omega

theorem f32_le (x : ℚ) (m j : Int) (hx : 0 ≤ x) (hj : 0 ≤ j) (hlt : x < (2 : ℚ) ^ (j + 24))
    (hc : x ≤ (m : ℚ) * (2 : ℚ) ^ j) : f32 x ≤ (m : ℚ) * (2 : ℚ) ^ j := by
  have he := f32_log_le x j hx hj hlt
  unfold f32
  generalize Int.log 2 |x| - 23 = e at he ⊢
  have hq : (0 : ℚ) < (2 : ℚ) ^ e := zpow_pos (by norm_num) e
  have hsplit : (2 : ℚ) ^ j = (2 : ℚ) ^ (j - e).toNat * (2 : ℚ) ^ e := by
    rw [← zpow_natCast, ← zpow_add₀ (by norm_num)]
    congr 1
    omega
  have hdiv : x / (2 : ℚ) ^ e ≤ ((m * 2 ^ (j - e).toNat : Int) : ℚ) := by
    rw [div_le_iff₀ hq]
    push_cast
    rw [mul_assoc, ← hsplit]
    exact hc
  have hr := roundHalfEven_le _ _ hdiv
  have hr2 : ((roundHalfEven (x / (2 : ℚ) ^ e) : Int) : ℚ) ≤ ((m * 2 ^ (j - e).toNat : Int) : ℚ) := by
    exact_mod_cast hr
  calc ((roundHalfEven (x / (2 : ℚ) ^ e) : Int) : ℚ) * (2 : ℚ) ^ e
      ≤ ((m * 2 ^ (j - e).toNat : Int) : ℚ) * (2 : ℚ) ^ e :=
        mul_le_mul_of_nonneg_right hr2 hq.le
    _ = (m : ℚ) * (2 : ℚ) ^ j := by
        push_cast
        rw [mul_assoc, ← hsplit]

theorem le_f32 (x : ℚ) (m j : Int) (hx : 0 ≤ x) (hj : 0 ≤ j) (hlt : x < (2 : ℚ) ^ (j + 24))
    (hc : (m : ℚ) * (2 : ℚ) ^ j ≤ x) : (m : ℚ) * (2 : ℚ) ^ j ≤ f32 x := by
  have he := f32_log_le x j hx hj hlt
  unfold f32
  generalize Int.log 2 |x| - 23 = e at he ⊢
  have hq : (0 : ℚ) < (2 : ℚ) ^ e := zpow_pos (by norm_num) e
  have hsplit : (2 : ℚ) ^ j = (2 : ℚ) ^ (j - e).toNat * (2 : ℚ) ^ e := by
    rw [← zpow_natCast, ← zpow_add₀ (by norm_num)]
    congr 1
    omega
  have hdiv : ((m * 2 ^ (j - e).toNat : Int) : ℚ) ≤ x / (2 : ℚ) ^ e := by
    rw [le_div_iff₀ hq]
    push_cast
    rw [mul_assoc, ← hsplit]
    exact hc
  have hr := le_roundHalfEven _ _ hdiv
  have hr2 : ((m * 2 ^ (j - e).toNat : Int) : ℚ) ≤ ((roundHalfEven (x / (2 : ℚ) ^ e) : Int) : ℚ) := by
    exact_mod_cast hr
  calc (m : ℚ) * (2 : ℚ) ^ j = ((m * 2 ^ (j - e).toNat : Int) : ℚ) * (2 : ℚ) ^ e := by
        push_cast
        rw [mul_assoc, ← hsplit]
    _ ≤ ((roundHalfEven (x / (2 : ℚ) ^ e) : Int) : ℚ) * (2 : ℚ) ^ e :=
        mul_le_mul_of_nonneg_right hr2 hq.le

theorem roundHalfEven_intCast (n : Int) : roundHalfEven (n : ℚ) = n := by
  unfold roundHalfEven
  simp

theorem log_eq_of_bounds (x : ℚ) (e : Int) (h1 : (2 : ℚ) ^ e ≤ x) (h2 : x < (2 : ℚ) ^ (e + 1)) :
    Int.log 2 |x| = e := by
  have hpos : 0 < x := lt_of_lt_of_le (zpow_pos (by norm_num) e) h1
  rw [abs_of_pos hpos]
  have ha := (Int.zpow_le_iff_le_log (b := 2) (by norm_num) hpos).mp (by simpa using h1)
  have hb := (Int.lt_zpow_iff_log_lt (b := 2) (by norm_num) hpos).mp (by simpa using h2)
  omega

theorem f32_exact (x : ℚ) (e n : Int) (h1 : (2 : ℚ) ^ e ≤ x) (h2 : x < (2 : ℚ) ^ (e + 1))
    (hn : x = (n : ℚ) * (2 : ℚ) ^ (e - 23)) : f32 x = x := by
  have hq : (2 : ℚ) ^ (e - 23) ≠ 0 := (zpow_pos (by norm_num) _).ne'
  unfold f32
  rw [log_eq_of_bounds x e h1 h2]
  have hdiv : x / (2 : ℚ) ^ (e - 23) = (n : ℚ) := by
    rw [hn]
    field_simp
  rw [hdiv, roundHalfEven_intCast, ← hn]

theorem f32_31622399 : f32 31622399 = 31622400 := by
  have hlog := log_eq_of_bounds 31622399 24 (by norm_num) (by norm_num)
  have hfl : ⌊(31622399 / 2 : ℚ)⌋ = 15811199 := by
    rw [Int.floor_eq_iff]
    norm_num
  have hr : roundHalfEven (31622399 / 2 : ℚ) = 15811200 := by
    unfold roundHalfEven
    rw [hfl]
    norm_num
  unfold f32
  rw [hlog]
  norm_num
  rw [hr]
  norm_num

theorem f32_8784 : f32 8784 = 8784 :=
  f32_exact 8784 13 (8784 * 1024) (by norm_num) (by norm_num) (by norm_num)

theorem f32_8792 : f32 8792 = 8792 :=
  f32_exact 8792 13 (8792 * 1024) (by norm_num) (by norm_num) (by norm_num)

theorem hoursF32_ok (year : time_t → Int) (now : time_t) (hyi : yearIndex year now < 24) :
    hoursF32 year now =
      .ok (f32 (f32 (((now.val - (startSecs.getD (yearIndex year now) 0 : Int)) %
              4294967296 : Int) : ℚ) / 3600),
        f32 (f32 (f32 (((now.val - (startSecs.getD (yearIndex year now) 0 : Int)) %
              4294967296 : Int) : ℚ) / 3600) + 8)) := by
  have hs := readAt_getD .startSecs startSecs (yearIndex year now) 0
    (by rw [startSecs_length]; exact hyi)
  unfold hoursF32
  simp only [bind, Except.bind]
  rw [show ((year now - (startYear : Int)) % 4294967296).toNat = yearIndex year now from rfl, hs]
  simp [adjustGMT, pure, Except.pure]

theorem f32_hours_bounds (n : Int) (h0 : 0 ≤ n) (h1 : n < 31622400) :
    0 ≤ f32 (f32 (n : ℚ) / 3600) ∧ f32 (f32 (n : ℚ) / 3600) ≤ 8784 ∧
    8 ≤ f32 (f32 (f32 (n : ℚ) / 3600) + 8) ∧ f32 (f32 (f32 (n : ℚ) / 3600) + 8) ≤ 8792 := by
  have hn0 : (0 : ℚ) ≤ (n : ℚ) := by exact_mod_cast h0
  have hn1 : (n : ℚ) < 31622400 := by exact_mod_cast h1
  have ha0 : 0 ≤ f32 (n : ℚ) := by
    have := le_f32 (n : ℚ) 0 1 hn0 (by norm_num) (by norm_num; linarith) (by norm_num; linarith)
    simpa using this
  have ha1 : f32 (n : ℚ) ≤ 31622400 := by
    have := f32_le (n : ℚ) 15811200 1 hn0 (by norm_num) (by norm_num; linarith)
      (by norm_num; linarith)
    norm_num at this
    linarith
  have hb0 : 0 ≤ f32 (n : ℚ) / 3600 := div_nonneg ha0 (by norm_num)
  have hb1 : f32 (n : ℚ) / 3600 ≤ 8784 := by
    rw [div_le_iff₀ (by norm_num)]
    linarith
  have hc0 : 0 ≤ f32 (f32 (n : ℚ) / 3600) := by
    have := le_f32 (f32 (n : ℚ) / 3600) 0 0 hb0 (by norm_num) (by norm_num; linarith)
      (by norm_num; linarith)
    simpa using this
  have hc1 : f32 (f32 (n : ℚ) / 3600) ≤ 8784 := by
    have := f32_le (f32 (n : ℚ) / 3600) 8784 0 hb0 (by norm_num) (by norm_num; linarith)
      (by norm_num; linarith)
    simpa using this
  have hd0 : 8 ≤ f32 (f32 (f32 (n : ℚ) / 3600) + 8) := by
    have := le_f32 (f32 (f32 (n : ℚ) / 3600) + 8) 8 0 (by linarith) (by norm_num)
      (by norm_num; linarith) (by norm_num; linarith)
    simpa using this
  have hd1 : f32 (f32 (f32 (n : ℚ) / 3600) + 8) ≤ 8792 := by
    have := f32_le (f32 (f32 (n : ℚ) / 3600) + 8) 8792 0 (by linarith) (by norm_num)
      (by norm_num; linarith) (by norm_num; linarith)
    simpa using this
  exact ⟨hc0, hc1, hd0, hd1⟩

/-- C13, counterexample: at 1483228799, the last second of 2016 (UTC) and inside the claim's
range, the row is 1 and the elapsed seconds are 31622399; their conversion to `float` is
31622400, so the elapsed hours the code computes are 8784 and `currHours` is 8792: neither is
strictly below the upper end the claim gives. -/
theorem hours_reach_upper_end_at_end_of_2016 :
    lastSecondOf2016.val = 1483228799 ∧
    ((startSecs.getD 0 0 : Int) ≤ lastSecondOf2016.val ∧
      lastSecondOf2016.val < (startSecs.getD 23 0 : Int) + 365 * 86400) ∧
    utcYear lastSecondOf2016 = 2016 ∧
    yearIndex utcYear lastSecondOf2016 = 1 ∧
    (lastSecondOf2016.val - (startSecs.getD 1 0 : Int)) % 4294967296 = 31622399 ∧
    f32 31622399 = 31622400 ∧
    hoursF32 utcYear lastSecondOf2016 = .ok (8784, 8792) ∧
    ¬ ((8784 : ℚ) < 8784) ∧ ¬ ((8792 : ℚ) < 8792) := by
  have hidx : yearIndex utcYear lastSecondOf2016 = 1 := by decide
  have hel : (lastSecondOf2016.val - (startSecs.getD 1 0 : Int)) % 4294967296 = 31622399 := by
    decide
  refine ⟨rfl, ⟨by decide, by decide⟩, by decide, hidx, hel, f32_31622399, ?_,
    lt_irrefl _, lt_irrefl _⟩
  rw [hoursF32_ok utcYear lastSecondOf2016 (by rw [hidx]; decide), hidx, hel]
  have h1 : f32 ((31622399 : Int) : ℚ) = 31622400 := by
    have := f32_31622399
    simpa using this
  rw [h1]
  norm_num
  rw [f32_8784]
  norm_num
  exact f32_8792

/-- C13, amended: row selection and no wrap-around. For every timestamp `t` with
`startSecs[0] ≤ t < startSecs[23] + 365 * 86400`, the year taken in UTC, `currentTide` returns a
height and the year index `k` it leaves in `YearIndx` is `year - 2015`, lies in `[0, 24)` and is
the unique row with `startSecs[k] ≤ t` and, when `k < 23`, `t < startSecs[k+1]`; the unsigned
subtraction `t - startSecs[k]` does not wrap around. In the code's `float` arithmetic the elapsed
hours lie in `[0, 8784]` and the hours value used in the sum in `[8, 8792]`, upper ends included;
read as exact real arithmetic the elapsed hours lie in `[0, 8784)` and the hours value in
`[8, 8792)`. -/
theorem currentTide_row_selection (g : Globals ℝ) (now : time_t)
    (hlo : (startSecs.getD 0 0 : Int) ≤ now.val)
    (hhi : now.val < (startSecs.getD 23 0 : Int) + 365 * 86400) :
    (∃ (height : ℝ) (g1 : Globals ℝ),
      currentTide utcYear Real.cos (Real.pi / 180) g now = .ok (height, g1) ∧
      (g1.YearIndx : Int) = utcYear now - 2015 ∧
      g1.YearIndx < 24 ∧
      (startSecs.getD g1.YearIndx 0 : Int) ≤ now.val ∧
      (g1.YearIndx < 23 → now.val < (startSecs.getD (g1.YearIndx + 1) 0 : Int)) ∧
      (∀ j, j < 24 → (startSecs.getD j 0 : Int) ≤ now.val →
        (j < 23 → now.val < (startSecs.getD (j + 1) 0 : Int)) → j = g1.YearIndx) ∧
      (now.val - (startSecs.getD g1.YearIndx 0 : Int)) % 4294967296 =
        now.val - (startSecs.getD g1.YearIndx 0 : Int) ∧
      0 ≤ ((now.val - (startSecs.getD g1.YearIndx 0 : Int) : Int) : ℝ) / 3600 ∧
      ((now.val - (startSecs.getD g1.YearIndx 0 : Int) : Int) : ℝ) / 3600 < 8784 ∧
      g1.currHours = ((now.val - (startSecs.getD g1.YearIndx 0 : Int) : Int) : ℝ) / 3600 + 8 ∧
      8 ≤ g1.currHours ∧ g1.currHours < 8792) ∧
    ∃ (elapsedHours hours : ℚ),
      hoursF32 utcYear now = .ok (elapsedHours, hours) ∧
      0 ≤ elapsedHours ∧ elapsedHours ≤ 8784 ∧ 8 ≤ hours ∧ hours ≤ 8792 := by
  have hs0 : startSecs.getD 0 0 = 1420070400 := rfl
  have hs23 : startSecs.getD 23 0 = 2145916800 := rfl
  rw [hs0] at hlo
  rw [hs23] at hhi
  obtain ⟨hy0, hy24, hrow, hnext⟩ := utcYear_row now (by omega) (by omega)
  obtain ⟨hidx, hlt⟩ := yearIndex_inRange utcYear now ⟨hy0, hy24⟩
  have hklt : (utcYear now - 2015).toNat < 24 := by omega
  have hspan := nextStart_le _ hklt
  have hel0 : 0 ≤ now.val - (startSecs.getD (utcYear now - 2015).toNat 0 : Int) := by omega
  have hel1 : now.val - (startSecs.getD (utcYear now - 2015).toNat 0 : Int) < 31622400 := by omega
  have hmod : (now.val - (startSecs.getD (utcYear now - 2015).toNat 0 : Int)) % 4294967296 =
      now.val - (startSecs.getD (utcYear now - 2015).toNat 0 : Int) :=
    Int.emod_eq_of_lt hel0 (by omega)
  have hr0 : (0 : ℝ) ≤
      ((now.val - (startSecs.getD (utcYear now - 2015).toNat 0 : Int) : Int) : ℝ) := by
    exact_mod_cast hel0
  have hr1 : ((now.val - (startSecs.getD (utcYear now - 2015).toNat 0 : Int) : Int) : ℝ) <
      31622400 := by
    exact_mod_cast hel1
  have hh := hoursValue_of_le (utcYear now - 2015).toNat now hrow
  have hdiv0 : 0 ≤
      ((now.val - (startSecs.getD (utcYear now - 2015).toNat 0 : Int) : Int) : ℝ) / 3600 :=
    div_nonneg hr0 (by norm_num)
  have hdiv1 :
      ((now.val - (startSecs.getD (utcYear now - 2015).toNat 0 : Int) : Int) : ℝ) / 3600 < 8784 := by
    rw [div_lt_iff₀ (by norm_num)]
    linarith
  refine ⟨⟨_, _, currentTide_ok utcYear g now hlt, ?_, ?_, ?_, ?_, ?_, ?_, ?_, ?_, ?_, ?_, ?_⟩, ?_⟩
  · simp only [finalGlobals, afterHarmonic, hidx]
    omega
  · simp only [finalGlobals, afterHarmonic]
    exact hlt
  · simp only [finalGlobals, afterHarmonic, hidx]
    exact hrow
  · simp only [finalGlobals, afterHarmonic, hidx]
    intro hk
    have hn : nextStart (utcYear now - 2015).toNat =
        (startSecs.getD ((utcYear now - 2015).toNat + 1) 0 : Int) := by
      simp only [nextStart, if_pos hk]
    rw [← hn]
    exact hnext
  · simp only [finalGlobals, afterHarmonic, hidx]
    intro j hj hjlo hjhi
    by_contra hne
    rcases Nat.lt_or_gt_of_ne hne with hlt2 | hgt2
    · have hj23 : j < 23 := by omega
      have hm := startSecs_mono (j + 1) (by omega) (utcYear now - 2015).toNat hklt (by omega)
      have hjn := hjhi hj23
      have hm2 : (startSecs.getD (j + 1) 0 : Int) ≤
          (startSecs.getD (utcYear now - 2015).toNat 0 : Int) := by exact_mod_cast hm
      omega
    · have hk23 : (utcYear now - 2015).toNat < 23 := by omega
      have hm := startSecs_mono ((utcYear now - 2015).toNat + 1) (by omega) j hj (by omega)
      have hn : nextStart (utcYear now - 2015).toNat =
          (startSecs.getD ((utcYear now - 2015).toNat + 1) 0 : Int) := by
        simp only [nextStart, if_pos hk23]
      have hm2 : (startSecs.getD ((utcYear now - 2015).toNat + 1) 0 : Int) ≤
          (startSecs.getD j 0 : Int) := by exact_mod_cast hm
      omega
  · simp only [finalGlobals, afterHarmonic, hidx]
    exact hmod
  · simp only [finalGlobals, afterHarmonic, hidx]
    exact hdiv0
  · simp only [finalGlobals, afterHarmonic, hidx]
    exact hdiv1
  · simp only [finalGlobals, afterHarmonic, hidx, hh]
  · simp only [finalGlobals, afterHarmonic, hidx, hh]
    linarith
  · simp only [finalGlobals, afterHarmonic, hidx, hh]
    linarith
  · obtain ⟨hb0, hb1, hb2, hb3⟩ := f32_hours_bounds _ hel0 hel1
    refine ⟨_, _, hoursF32_ok utcYear now hlt, ?_, ?_, ?_, ?_⟩
    · rw [hidx, hmod]
      exact hb0
    · rw [hidx, hmod]
      exact hb1
    · rw [hidx, hmod]
      exact hb2
    · rw [hidx, hmod]
      exact hb3

/-- Witness of the amended C13 at 2016-07-01 00:00:00 UTC. -/
theorem currentTide_row_selection_witness :
    ((startSecs.getD 0 0 : Int) ≤ midOf2016.val ∧
      midOf2016.val < (startSecs.getD 23 0 : Int) + 365 * 86400) ∧
    (∃ (height : ℝ) (g1 : Globals ℝ),
      currentTide utcYear Real.cos (Real.pi / 180) initGlobals midOf2016 = .ok (height, g1) ∧
      (g1.YearIndx : Int) = utcYear midOf2016 - 2015 ∧
      g1.YearIndx < 24 ∧
      (startSecs.getD g1.YearIndx 0 : Int) ≤ midOf2016.val ∧
      (g1.YearIndx < 23 → midOf2016.val < (startSecs.getD (g1.YearIndx + 1) 0 : Int)) ∧
      (∀ j, j < 24 → (startSecs.getD j 0 : Int) ≤ midOf2016.val →
        (j < 23 → midOf2016.val < (startSecs.getD (j + 1) 0 : Int)) → j = g1.YearIndx) ∧
      (midOf2016.val - (startSecs.getD g1.YearIndx 0 : Int)) % 4294967296 =
        midOf2016.val - (startSecs.getD g1.YearIndx 0 : Int) ∧
      0 ≤ ((midOf2016.val - (startSecs.getD g1.YearIndx 0 : Int) : Int) : ℝ) / 3600 ∧
      ((midOf2016.val - (startSecs.getD g1.YearIndx 0 : Int) : Int) : ℝ) / 3600 < 8784 ∧
      g1.currHours =
        ((midOf2016.val - (startSecs.getD g1.YearIndx 0 : Int) : Int) : ℝ) / 3600 + 8 ∧
      8 ≤ g1.currHours ∧ g1.currHours < 8792) ∧
    ∃ (elapsedHours hours : ℚ),
      hoursF32 utcYear midOf2016 = .ok (elapsedHours, hours) ∧
      0 ≤ elapsedHours ∧ elapsedHours ≤ 8784 ∧ 8 ≤ hours ∧ hours ≤ 8792 :=
  ⟨⟨by decide, by decide⟩,
    currentTide_row_selection initGlobals midOf2016 (by decide) (by decide)⟩

/-! ## Signs of the table entries and the bound -/

set_option maxRecDepth 1000000 in
theorem Amp_nonneg : ∀ x ∈ Amp, 0 ≤ x := by
  decide!

set_option maxRecDepth 1000000 in
theorem Nodefactor_nonneg : ∀ row ∈ Nodefactor, ∀ x ∈ row, 0 ≤ x := by
  decide!

theorem getD_nonneg (xs : List ℚ) (h : ∀ x ∈ xs, 0 ≤ x) (i : Nat) : 0 ≤ xs.getD i 0 := by
  rcases Nat.lt_or_ge i xs.length with hi | hi
  · rw [List.getD_eq_getElem _ _ hi]
    exact h _ (List.getElem_mem hi)
  · rw [List.getD_eq_default _ _ hi]

theorem entry_Amp_nonneg (i : Nat) : (0 : ℝ) ≤ (entry Amp i : ℝ) := by
  have h := getD_nonneg Amp Amp_nonneg i
  unfold entry
  exact_mod_cast h

theorem entry2_Nodefactor_nonneg (r c : Nat) : (0 : ℝ) ≤ (entry2 Nodefactor r c : ℝ) := by
  have hrow : ∀ x ∈ Nodefactor.getD r [], 0 ≤ x := by
    rcases Nat.lt_or_ge r Nodefactor.length with hr | hr
    · rw [List.getD_eq_getElem _ _ hr]
      exact Nodefactor_nonneg _ (List.getElem_mem hr)
    · rw [List.getD_eq_default _ _ hr]
      intro x hx
      cases hx
  have h := getD_nonneg (Nodefactor.getD r []) hrow c
  unfold entry2
  exact_mod_cast h

theorem abs_sum_terms_le (yi : Nat) (h : ℝ) :
    |∑ i in Finset.range 37,
        harmonicTerm Real.cos (Real.pi / 180) (Amp.map (fun a : ℚ => (a : ℝ))) yi h i| ≤
      ∑ i in Finset.range 37, (entry2 Nodefactor yi i : ℝ) * (entry Amp i : ℝ) := by
  refine le_trans (Finset.abs_sum_le_sum_abs _ _) (Finset.sum_le_sum ?_)
  intro i _
  have hn := entry2_Nodefactor_nonneg yi i
  have ha := entry_Amp_nonneg i
  simp only [harmonicTerm, getD_map_cast]
  rw [abs_mul, abs_of_nonneg (mul_nonneg hn ha)]
  exact mul_le_of_le_one_right (mul_nonneg hn ha) (Real.abs_cos_le_one _)

/-- C14: bounded prediction. Every entry of `Amp` and of `Nodefactor` is non-negative. Hence,
in exact real arithmetic: for every year index `yi` in `[0, 24)` and every hours value `h`, the
summation loop started with `tideHeight = Datum` ends with
`|tideHeight - Datum| ≤ Σ Nodefactor[yi][i] * Amp[i]` (sum over `i = 0 .. 36`); and for every
timestamp with an in-range year index, `currentTide` returns a height inside the band `Datum`
plus or minus that sum. -/
theorem currentTide_bounded (year : time_t → Int) (g : Globals ℝ) (now : time_t)
    (hy : 0 ≤ year now - 2015 ∧ year now - 2015 < 24) (yi : Nat) (hyi : yi < 24) (h : ℝ) :
    (∀ x ∈ Amp, 0 ≤ x) ∧
    (∀ row ∈ Nodefactor, ∀ x ∈ row, 0 ≤ x) ∧
    (∃ gl : Globals ℝ,
      (List.range 37).foldlM
          (harmonicWith Real.cos (Real.pi / 180) (Amp.map (fun a : ℚ => (a : ℝ))))
          { g with YearIndx := yi, currHours := h, tideHeight := (Datum : ℝ) } = .ok gl ∧
      |gl.tideHeight - (Datum : ℝ)| ≤
        ∑ i in Finset.range 37, (entry2 Nodefactor yi i : ℝ) * (entry Amp i : ℝ)) ∧
    ∃ (height : ℝ) (g1 : Globals ℝ),
      currentTide year Real.cos (Real.pi / 180) g now = .ok (height, g1) ∧
      |height - (Datum : ℝ)| ≤
        ∑ i in Finset.range 37,
          (entry2 Nodefactor (year now - 2015).toNat i : ℝ) * (entry Amp i : ℝ) ∧
      (Datum : ℝ) - ∑ i in Finset.range 37,
          (entry2 Nodefactor (year now - 2015).toNat i : ℝ) * (entry Amp i : ℝ) ≤ height ∧
      height ≤ (Datum : ℝ) + ∑ i in Finset.range 37,
          (entry2 Nodefactor (year now - 2015).toNat i : ℝ) * (entry Amp i : ℝ) := by
  obtain ⟨hidx, hlt⟩ := yearIndex_inRange year now hy
  have hamp : (Amp.map (fun a : ℚ => (a : ℝ))).length = 37 := by simp [Amp_length]
  refine ⟨Amp_nonneg, Nodefactor_nonneg, ⟨_, loop_ok Real.cos (Real.pi / 180) _ hamp _ hyi, ?_⟩,
    _, _, currentTide_ok year g now hlt, ?_, ?_, ?_⟩
  · simp only [afterHarmonic, foldl_add_eq_sum, add_sub_cancel_left]
    exact abs_sum_terms_le yi h
  · rw [heightValue_eq_sum, add_sub_cancel_left, hidx]
    exact abs_sum_terms_le _ _
  · have hb := abs_sum_terms_le (yearIndex year now) (hoursValue (yearIndex year now) now)
    rw [heightValue_eq_sum, ← hidx]
    have := (abs_le.mp hb).1
    linarith
  · have hb := abs_sum_terms_le (yearIndex year now) (hoursValue (yearIndex year now) now)
    rw [heightValue_eq_sum, ← hidx]
    have := (abs_le.mp hb).2
    linarith

/-- Witness of C14 at 2016-07-01 00:00:00 UTC, the year taken in UTC, and for the loop at year
row 0 and hours value 0. -/
theorem currentTide_bounded_witness :
    ((0 ≤ utcYear midOf2016 - 2015 ∧ utcYear midOf2016 - 2015 < 24) ∧ 0 < 24) ∧
    (∀ x ∈ Amp, 0 ≤ x) ∧
    (∀ row ∈ Nodefactor, ∀ x ∈ row, 0 ≤ x) ∧
    (∃ gl : Globals ℝ,
      (List.range 37).foldlM
          (harmonicWith Real.cos (Real.pi / 180) (Amp.map (fun a : ℚ => (a : ℝ))))
          { (initGlobals : Globals ℝ) with
            YearIndx := 0, currHours := 0, tideHeight := (Datum : ℝ) } = .ok gl ∧
      |gl.tideHeight - (Datum : ℝ)| ≤
        ∑ i in Finset.range 37, (entry2 Nodefactor 0 i : ℝ) * (entry Amp i : ℝ)) ∧
    ∃ (height : ℝ) (g1 : Globals ℝ),
      currentTide utcYear Real.cos (Real.pi / 180) initGlobals midOf2016 = .ok (height, g1) ∧
      |height - (Datum : ℝ)| ≤
        ∑ i in Finset.range 37,
          (entry2 Nodefactor (utcYear midOf2016 - 2015).toNat i : ℝ) * (entry Amp i : ℝ) ∧
      (Datum : ℝ) - ∑ i in Finset.range 37,
          (entry2 Nodefactor (utcYear midOf2016 - 2015).toNat i : ℝ) * (entry Amp i : ℝ) ≤
        height ∧
      height ≤ (Datum : ℝ) + ∑ i in Finset.range 37,
          (entry2 Nodefactor (utcYear midOf2016 - 2015).toNat i : ℝ) * (entry Amp i : ℝ) :=
  ⟨⟨by decide, by decide⟩,
    currentTide_bounded utcYear initGlobals midOf2016 (by decide) 0 (by decide) 0⟩

end TideCalc
